import Mathlib

/-!
# Matrimony backend: match scoring and horoscope compatibility

A shallow embedding of the scoring code of the repository
(`src/utils/matchAlgorithms.js`, `src/utils/horoscopeCalculator.js`,
`src/controllers/horoscopeController.js`, `src/controllers/matchController.js`,
and the age computations of `src/utils/helpers.js`, `src/models/User.js` and
`src/utils/validators.js`) followed by theorems about it.

Conventions of the embedding.

* A JavaScript property that may be `undefined` is an `Option`; `===` on two such
  properties is equality of the options (`undefined === undefined` holds).
* Truthiness follows JavaScript: `undefined`, `0` and the empty string are falsy.
* Numbers are integers or rationals, each the exact value of the finite double it
  stands for. The income quotient is a division of doubles: the exact quotient rounded
  to the nearest double (`JS.toDouble`, ties to even, subnormals included), compared
  with the doubles the literals `0.8`, `0.6`, `0.4` denote. A quotient too large for a
  double is left as it is, which compares with these literals as `Infinity` does.
* A lookup `table[key]` in an object literal sees the literal's own keys and,
  failing those, the properties every object inherits from `Object.prototype`.
* A thrown `TypeError` is `Except.error JSError.typeError`.
* A time value is an integer number of milliseconds since 1970-01-01T00:00:00Z, and
  `getUTCFullYear` follows the ECMAScript definitions `DayFromYear`, `TimeFromYear`,
  `YearFromTime`; the current instant is a parameter `now`.
-/

namespace JS

/-- Errors a JavaScript evaluation can throw in the embedded code. -/
inductive JSError where
  | typeError
  deriving DecidableEq, Repr

/-- The property names every object literal inherits from `Object.prototype`. -/
def objectPrototypeKeys : List String :=
  ["constructor", "__defineGetter__", "__defineSetter__", "hasOwnProperty",
   "__lookupGetter__", "__lookupSetter__", "isPrototypeOf", "propertyIsEnumerable",
   "toString", "valueOf", "__proto__", "toLocaleString"]

/-- Result of reading `table[key]` on an object literal. -/
inductive Lookup (α : Type) where
  /-- The key is one of the literal's own keys. -/
  | own (v : α)
  /-- The key names a property inherited from `Object.prototype`
      (a function, or the prototype object itself for `__proto__`): truthy, not a table entry. -/
  | inherited
  /-- The read yields `undefined`. -/
  | missing
  deriving DecidableEq, Repr

/-- The read `table[key]` for a string key. -/
def lookupKey {α : Type} (table : List (String × α)) (key : String) : Lookup α :=
  match table.lookup key with
  | some v => Lookup.own v
  | none => if key ∈ objectPrototypeKeys then Lookup.inherited else Lookup.missing

/-- Property-key conversion: `undefined` becomes the string `"undefined"`. -/
def toPropertyKey : Option String → String
  | some s => s
  | none => "undefined"

/-- Truthiness of a possibly-undefined string. -/
def truthyStr : Option String → Bool
  | some s => s != ""
  | none => false

/-- Truthiness of a possibly-undefined number. -/
def truthyNum : Option Int → Bool
  | some n => n != 0
  | none => false

/-- Truthiness of a possibly-undefined number that need not be whole. -/
def truthyNumber : Option ℚ → Bool
  | some x => x != 0
  | none => false

/-- Rounding of a rational to an integer, a tie going to the even neighbour. -/
def roundHalfEven (x : ℚ) : Int :=
  let f := ⌊x⌋
  if x - f < 1 / 2 then f
  else if 1 / 2 < x - f then f + 1
  else if f % 2 = 0 then f else f + 1

/-- Base-2 logarithm of a natural number, rounded down, by repeated halving. -/
def log2Fuel : Nat → Nat → Nat
  | 0, _ => 0
  | fuel + 1, n => if 2 ≤ n then log2Fuel fuel (n / 2) + 1 else 0

/-- The exponent `e` with `2^e ≤ x < 2^(e+1)` of a positive rational `x`. -/
def binade (x : ℚ) : Int :=
  let e0 : Int := (log2Fuel x.num.natAbs x.num.natAbs : Int) - (log2Fuel x.den x.den : Int)
  if (2 : ℚ) ^ e0 ≤ x then e0 else e0 - 1

/-- The double nearest to a positive rational: 53 significant bits in the binade of
    `x`, the spacing `2^-1074` of the subnormal doubles below `2^-1022`. -/
def roundPos (x : ℚ) : ℚ :=
  let k : Int := Max.max (binade x) (-1022) - 52
  (roundHalfEven (x / (2 : ℚ) ^ k) : ℚ) * (2 : ℚ) ^ k

/-- The Number value nearest to a rational: what a decimal literal denotes and what an
    arithmetic operation on doubles returns for its exact result. -/
def toDouble (x : ℚ) : ℚ :=
  if x = 0 then 0 else if 0 < x then roundPos x else -roundPos (-x)

/-- The call `arr.includes(x)` for an array of strings and a possibly-undefined `x`. -/
def includes (arr : List String) : Option String → Bool
  | some s => arr.contains s
  | none => false

/-- The call `Math.round(x)`: the nearest integer, a half rounding up. -/
def mathRound (x : ℚ) : Int := ⌊x + 1 / 2⌋

/-- String conversion inside a template literal: `undefined` prints as `undefined`. -/
def toStr : Option String → String
  | some s => s
  | none => "undefined"

end JS

/-! ## User profiles (`src/models/User.js`, the fields the scorer reads) -/

/-- The `preferences.ageRange` sub-document. -/
structure AgeRange where
  min : Int
  max : Int
  deriving DecidableEq, Repr

/-- The `preferences` sub-document, restricted to what the scorer reads. -/
structure Preferences where
  ageRange : Option AgeRange
  education : Option (List String)
  profession : Option (List String)
  deriving DecidableEq, Repr

/-- A user profile as read by `calculateMatchScore`. -/
structure User where
  age : Option Int
  education : Option String
  profession : Option String
  currentCity : Option String
  currentState : Option String
  currentCountry : Option String
  willingToRelocate : Bool
  annualIncome : Option ℚ
  diet : Option String
  smoking : Option String
  drinking : Option String
  community : Option String
  subCommunity : Option String
  gotra : Option String
  preferences : Option Preferences
  deriving DecidableEq, Repr

/-- The profile with no attribute set (the object `{}`). -/
def User.empty : User :=
  { age := none, education := none, profession := none, currentCity := none,
    currentState := none, currentCountry := none, willingToRelocate := false,
    annualIncome := none, diet := none, smoking := none, drinking := none,
    community := none, subCommunity := none, gotra := none, preferences := none }

namespace MatchAlgorithms

open JS

/-- Block 1: age compatibility. -/
def ageScore (user1 user2 : User) : Nat :=
  if truthyNum user1.age && truthyNum user2.age then
    match user1.age, user2.age with
    | some a1, some a2 =>
      let ageDiff := |a1 - a2|
      if ageDiff ≤ 3 then 15
      else if ageDiff ≤ 5 then 10
      else if ageDiff ≤ 8 then 5
      else 0
    | _, _ => 0
  else 0

/-- The `eduLevels` table. -/
def eduLevels : List (String × Int) :=
  [("PhD", 5), ("Post Graduate", 4), ("Graduate", 3), ("Diploma", 2), ("12th", 1), ("10th", 0)]

/-- The expression `eduLevels[e] || 0` as a number; `none` stands for a value that is
    not a number (an inherited property, which is truthy and converts to `NaN`). -/
def eduLevel (e : String) : Option Int :=
  match lookupKey eduLevels e with
  | Lookup.own v => some v
  | Lookup.inherited => none
  | Lookup.missing => some 0

/-- Block 2: education compatibility. A `NaN` difference satisfies none of the tests. -/
def educationScore (user1 user2 : User) : Nat :=
  if truthyStr user1.education && truthyStr user2.education then
    match user1.education, user2.education with
    | some e1, some e2 =>
      match eduLevel e1, eduLevel e2 with
      | some edu1, some edu2 =>
        let eduDiff := |edu1 - edu2|
        if eduDiff = 0 then 15
        else if eduDiff = 1 then 10
        else if eduDiff = 2 then 5
        else 0
      | _, _ => 0
    | _, _ => 0
  else 0

/-- The `similarProfessions` groups. -/
def similarProfessions : List (List String) :=
  [["Doctor", "Doctor", "Nurse", "Pharmacist"],
   ["Engineer", "Engineer", "Architect", "Technician"],
   ["Teacher", "Teacher", "Professor", "Lecturer"],
   ["Business", "Business", "Entrepreneur", "Trader"],
   ["Government", "Government", "Politician", "Officer"]]

/-- The loop computing `isSimilar`. -/
def isSimilar (p1 p2 : Option String) : Bool :=
  similarProfessions.any (fun group => includes group p1 && includes group p2)

/-- Block 3: profession compatibility. -/
def professionScore (user1 user2 : User) : Nat :=
  if truthyStr user1.profession && truthyStr user2.profession then
    if isSimilar user1.profession user2.profession then 10
    else if user1.profession = user2.profession then 10
    else 5
  else 0

/-- Block 4: location compatibility. -/
def locationScore (user1 user2 : User) : Nat :=
  if truthyStr user1.currentCity && truthyStr user2.currentCity then
    if user1.currentCity = user2.currentCity then 10
    else if user1.currentState = user2.currentState then 7
    else if user1.currentCountry = user2.currentCountry then 5
    else if user1.willingToRelocate || user2.willingToRelocate then 3
    else 0
  else 0

/-- The quotient `Math.min(income1, income2) / Math.max(income1, income2)`, a division
    of doubles: the exact quotient rounded to the nearest double. -/
def incomeRatio (income1 income2 : ℚ) : ℚ :=
  toDouble (Min.min income1 income2 / Max.max income1 income2)

/-- Block 5: income compatibility; `0.8`, `0.6`, `0.4` are the doubles nearest to
    8/10, 6/10, 4/10. -/
def incomeScore (user1 user2 : User) : Nat :=
  if truthyNumber user1.annualIncome && truthyNumber user2.annualIncome then
    match user1.annualIncome, user2.annualIncome with
    | some income1, some income2 =>
      if incomeRatio income1 income2 ≥ toDouble (8 / 10) then 10
      else if incomeRatio income1 income2 ≥ toDouble (6 / 10) then 7
      else if incomeRatio income1 income2 ≥ toDouble (4 / 10) then 5
      else 2
    | _, _ => 0
  else 0

/-- Block 6: lifestyle compatibility, `Math.min(lifestyleScore, 10)`. -/
def lifestyleScore (user1 user2 : User) : Nat :=
  Min.min
    ((if user1.diet = user2.diet then 3 else 0)
      + (if user1.smoking = user2.smoking then 3 else 0)
      + (if user1.drinking = user2.drinking then 4 else 0))
    10

/-- Block 7: family background. -/
def familyScore (user1 user2 : User) : Nat :=
  (if user1.subCommunity = user2.subCommunity then 5 else 0)
    + (if user1.gotra ≠ user2.gotra then 5 else 0)

/-- The test `other.age >= ageRange.min && other.age <= ageRange.min` of block 8
    (both comparisons read `ageRange.min`, as the source does). -/
def ageRangeTest (range : AgeRange) : Option Int → Bool
  | some a => decide (a ≥ range.min) && decide (a ≤ range.min)
  | none => false

/-- One direction of block 8: how far `other` meets the preferences of `self`. -/
def preferenceSide (self other : User) : Nat :=
  match self.preferences with
  | none => 0
  | some prefs =>
    (match prefs.ageRange with
      | some range => if ageRangeTest range other.age then 3 else 0
      | none => 0)
    + (match prefs.education with
      | some edus => if includes edus other.education then 3 else 0
      | none => 0)
    + (match prefs.profession with
      | some profs => if includes profs other.profession then 3 else 0
      | none => 0)

/-- Block 8: preferences match, `Math.min(preferenceScore, 20)`. -/
def preferenceScore (user1 user2 : User) : Nat :=
  Min.min (preferenceSide user1 user2 + preferenceSide user2 user1) 20

/-- Block 9: community specific bonus. -/
def communityBonus (user1 user2 : User) : Nat :=
  if user1.subCommunity = user2.subCommunity ∧ user1.subCommunity = some "Yadhavar" then 5 else 0

/-- The function `calculateMatchScore(user1, user2)` of `matchAlgorithms.js`. -/
def calculateMatchScore (user1 user2 : User) : Nat :=
  let maxScore := 100
  let score :=
    ageScore user1 user2 + educationScore user1 user2 + professionScore user1 user2
      + locationScore user1 user2 + incomeScore user1 user2 + lifestyleScore user1 user2
      + familyScore user1 user2 + preferenceScore user1 user2 + communityBonus user1 user2
  Min.min score maxScore

end MatchAlgorithms

/-! ## Horoscope records (`src/models/Horoscope.js`, the fields the scorers read) -/

/-- The `planets` property, restricted to the placement the scorer reads. -/
structure Planets where
  sun : Option String
  deriving DecidableEq, Repr

/-- A horoscope record. -/
structure Horoscope where
  rashi : Option String
  nakshatra : Option String
  nakshatraPada : Option Int
  manglik : Bool
  planets : Option Planets
  deriving DecidableEq, Repr

/-- A birth instant as the calculator reads it through `getMonth`, `getDate`, `getHours`. -/
structure BirthDate where
  getMonth : Nat
  getDate : Nat
  getHours : Int
  deriving DecidableEq, Repr

namespace HoroscopeCalculator

open JS

/-- One row of the `zodiac` table: `{ name, start: [startMonth, startDay], end: [endMonth, endDay] }`. -/
structure ZodiacSign where
  name : String
  startMonth : Nat
  startDay : Nat
  endMonth : Nat
  endDay : Nat
  deriving DecidableEq, Repr

/-- The `zodiac` table of `calculateRashi`. -/
def zodiac : List ZodiacSign :=
  [⟨"Aries", 3, 21, 4, 19⟩,
   ⟨"Taurus", 4, 20, 5, 20⟩,
   ⟨"Gemini", 5, 21, 6, 20⟩,
   ⟨"Cancer", 6, 21, 7, 22⟩,
   ⟨"Leo", 7, 23, 8, 22⟩,
   ⟨"Virgo", 8, 23, 9, 22⟩,
   ⟨"Libra", 9, 23, 10, 22⟩,
   ⟨"Scorpio", 10, 23, 11, 21⟩,
   ⟨"Sagittarius", 11, 22, 12, 21⟩,
   ⟨"Capricorn", 12, 22, 1, 19⟩,
   ⟨"Aquarius", 1, 20, 2, 18⟩,
   ⟨"Pisces", 2, 19, 3, 20⟩]

/-- The date-range test in the loop of `calculateRashi`. -/
def rangeTest (month day : Nat) (sign : ZodiacSign) : Bool :=
  (month == sign.startMonth && decide (day ≥ sign.startDay)) ||
  (month == sign.endMonth && decide (day ≤ sign.endDay)) ||
  (decide (sign.startMonth > sign.endMonth) &&
    (decide (month > sign.startMonth) || decide (month < sign.endMonth)))

/-- The method `calculateRashi(month, day)`: the first row whose test holds, else the default. -/
def calculateRashi (month day : Nat) : String :=
  match zodiac.find? (rangeTest month day) with
  | some sign => sign.name
  | none => "Aries"

/-- The `manglikRashis` array of `isManglik`. -/
def manglikRashis : List String := ["Aries", "Scorpio", "Capricorn"]

/-- The method `isManglik(rashi, dob)`. -/
def isManglik (rashi : String) (dob : BirthDate) : Bool :=
  let hour := dob.getHours
  let isManglikByTime := decide (hour ≥ 0) && decide (hour < 4)
  manglikRashis.contains rashi || isManglikByTime

/-- One entry of `compatibilityMatrix`. -/
structure RashiRow where
  good : List String
  average : List String
  poor : List String
  deriving DecidableEq, Repr

/-- The `compatibilityMatrix` table of `calculateRashiCompatibility`. -/
def compatibilityMatrix : List (String × RashiRow) :=
  [("Aries", ⟨["Leo", "Sagittarius", "Gemini"], ["Aries", "Aquarius"], ["Cancer", "Capricorn"]⟩),
   ("Taurus", ⟨["Virgo", "Capricorn", "Cancer"], ["Taurus", "Pisces"], ["Leo", "Aquarius"]⟩),
   ("Gemini", ⟨["Libra", "Aquarius", "Aries"], ["Gemini", "Leo"], ["Virgo", "Pisces"]⟩),
   ("Cancer", ⟨["Scorpio", "Pisces", "Taurus"], ["Cancer", "Virgo"], ["Aries", "Libra"]⟩),
   ("Leo", ⟨["Sagittarius", "Aries", "Gemini"], ["Leo", "Libra"], ["Taurus", "Scorpio"]⟩),
   ("Virgo", ⟨["Capricorn", "Taurus", "Cancer"], ["Virgo", "Scorpio"], ["Gemini", "Sagittarius"]⟩),
   ("Libra", ⟨["Aquarius", "Gemini", "Leo"], ["Libra", "Sagittarius"], ["Cancer", "Capricorn"]⟩),
   ("Scorpio", ⟨["Pisces", "Cancer", "Virgo"], ["Scorpio", "Capricorn"], ["Leo", "Aquarius"]⟩),
   ("Sagittarius", ⟨["Aries", "Leo", "Libra"], ["Sagittarius", "Aquarius"], ["Virgo", "Pisces"]⟩),
   ("Capricorn", ⟨["Taurus", "Virgo", "Scorpio"], ["Capricorn", "Pisces"], ["Aries", "Libra"]⟩),
   ("Aquarius", ⟨["Gemini", "Libra", "Aries"], ["Aquarius", "Sagittarius"], ["Taurus", "Scorpio"]⟩),
   ("Pisces", ⟨["Cancer", "Scorpio", "Taurus"], ["Pisces", "Capricorn"], ["Gemini", "Sagittarius"]⟩)]

/-- The method `calculateRashiCompatibility(rashi1, rashi2)`. For an inherited key
    `matrix` is truthy and `matrix.good` is `undefined`, so `.includes` throws. -/
def calculateRashiCompatibility (rashi1 rashi2 : Option String) : Except JSError Nat :=
  match lookupKey compatibilityMatrix (toPropertyKey rashi1) with
  | Lookup.missing => pure 6
  | Lookup.inherited => throw JSError.typeError
  | Lookup.own matrix =>
    if includes matrix.good rashi2 then pure 12
    else if includes matrix.average rashi2 then pure 8
    else if includes matrix.poor rashi2 then pure 4
    else pure 6

/-- The values of the `groups` object of `calculateNakshatraCompatibility`. -/
def nakshatraGroups : List (List String) :=
  [["Ashwini", "Magha", "Mula"],
   ["Bharani", "Purva Phalguni", "Purva Ashadha"],
   ["Krittika", "Uttara Phalguni", "Uttara Ashadha"]]

/-- The method `calculateNakshatraCompatibility(nakshatra1, nakshatra2)`. -/
def calculateNakshatraCompatibility (nakshatra1 nakshatra2 : Option String) : Nat :=
  if nakshatraGroups.any (fun group => includes group nakshatra1 && includes group nakshatra2)
  then 6 else 8

/-- The method `calculateManglikCompatibility(manglik1, manglik2)`. -/
def calculateManglikCompatibility (manglik1 manglik2 : Bool) : Nat :=
  if manglik1 && manglik2 then 8
  else if !manglik1 && !manglik2 then 8
  else 2

/-- The three tags `'deva'`, `'manushya'`, `'rakshasa'` returned by `getGana`. -/
inductive Gana where
  | deva
  | manushya
  | rakshasa
  deriving DecidableEq, Repr

/-- The `devaGana` array. -/
def devaGana : List String :=
  ["Ashwini", "Mrigashira", "Punarvasu", "Pushya", "Hasta", "Swati", "Anuradha", "Shravana",
   "Revati"]

/-- The `manushyaGana` array. -/
def manushyaGana : List String :=
  ["Bharani", "Rohini", "Ardra", "Purva Phalguni", "Uttara Phalguni", "Purva Ashadha",
   "Uttara Ashadha", "Purva Bhadrapada"]

/-- The `rakshasaGana` array. -/
def rakshasaGana : List String :=
  ["Krittika", "Ashlesha", "Magha", "Chitra", "Vishakha", "Jyeshtha", "Mula", "Dhanishta",
   "Shatabhisha"]

/-- The local function `getGana(nakshatra)`. -/
def getGana (nakshatra : Option String) : Gana :=
  if includes devaGana nakshatra then Gana.deva
  else if includes manushyaGana nakshatra then Gana.manushya
  else if includes rakshasaGana nakshatra then Gana.rakshasa
  else Gana.manushya

/-- The method `calculateGanaCompatibility(nakshatra1, nakshatra2)`. -/
def calculateGanaCompatibility (nakshatra1 nakshatra2 : Option String) : Nat :=
  let gana1 := getGana nakshatra1
  let gana2 := getGana nakshatra2
  if gana1 = Gana.deva ∧ gana2 = Gana.rakshasa then 0
  else if gana1 = Gana.rakshasa ∧ gana2 = Gana.deva then 0
  else if (gana1 = Gana.deva ∧ gana2 = Gana.deva) ∨
      (gana1 = Gana.rakshasa ∧ gana2 = Gana.rakshasa) then 6
  else 3

/-- The `bhakootCompatible` table. -/
def bhakootCompatible : List (String × List String) :=
  [("Aries", ["Gemini", "Leo", "Libra", "Sagittarius", "Aquarius"]),
   ("Taurus", ["Cancer", "Virgo", "Scorpio", "Capricorn", "Pisces"])]

/-- The method `calculateBhakootCompatibility(rashi1, rashi2)`:
    `bhakootCompatible[rashi1]?.includes(rashi2) ? 2 : 0`. The `?.` guards a nullish
    table entry only; an inherited entry has no `includes` and the call throws. -/
def calculateBhakootCompatibility (rashi1 rashi2 : Option String) : Except JSError Nat :=
  match lookupKey bhakootCompatible (toPropertyKey rashi1) with
  | Lookup.missing => pure 0
  | Lookup.inherited => throw JSError.typeError
  | Lookup.own compatible => pure (if includes compatible rashi2 then 2 else 0)

/-- The method `calculateMatchScore(horoscope1, horoscope2)` of the calculator. -/
def calculateMatchScore (horoscope1 horoscope2 : Horoscope) : Except JSError Nat := do
  let maxScore := 36
  let rashiPoints ← calculateRashiCompatibility horoscope1.rashi horoscope2.rashi
  let nakshatraPoints :=
    calculateNakshatraCompatibility horoscope1.nakshatra horoscope2.nakshatra
  let manglikPoints := calculateManglikCompatibility horoscope1.manglik horoscope2.manglik
  let ganaPoints := calculateGanaCompatibility horoscope1.nakshatra horoscope2.nakshatra
  let bhakootPoints ← calculateBhakootCompatibility horoscope1.rashi horoscope2.rashi
  let totalScore := rashiPoints + nakshatraPoints + manglikPoints + ganaPoints + bhakootPoints
  pure (Min.min totalScore maxScore)

/-- The `rashiScores` table of `calculateGunaMilanScore`. -/
def rashiScores : List (String × Nat) :=
  [("Aries", 6), ("Taurus", 7), ("Gemini", 6), ("Cancer", 8),
   ("Leo", 7), ("Virgo", 6), ("Libra", 7), ("Scorpio", 8),
   ("Sagittarius", 6), ("Capricorn", 7), ("Aquarius", 6), ("Pisces", 8)]

/-- The `favorableNakshatras` array of `calculateGunaMilanScore`. -/
def favorableNakshatras : List String :=
  ["Rohini", "Mrigashira", "Chitra", "Swati", "Shravana"]

/-- The method `calculateGunaMilanScore(rashi, nakshatra)`; `none` stands for `NaN`.
    For an inherited key `rashiScores[rashi]` is a truthy function or object, `score +=`
    concatenates it to a string, and `Math.min` of that string and 36 is `NaN`. -/
def calculateGunaMilanScore (rashi nakshatra : Option String) : Option Nat :=
  let nakshatraBonus := if includes favorableNakshatras nakshatra then 4 else 0
  match lookupKey rashiScores (toPropertyKey rashi) with
  | Lookup.own v => some (Min.min (18 + (if v = 0 then 6 else v) + nakshatraBonus) 36)
  | Lookup.inherited => none
  | Lookup.missing => some (Min.min (18 + 6 + nakshatraBonus) 36)

/-- One entry of the `factors` array of `getCompatibilityAnalysis`. -/
structure Factor where
  factor : String
  score : Int
  description : String
  status : String
  remedies : Option (List String)
  deriving DecidableEq, Repr

/-- The object returned by `getCompatibilityAnalysis`. -/
structure Analysis where
  factors : List Factor
  overallScore : Int
  assessment : String
  recommendation : String
  matchScore : ℚ
  maximumScore : Nat
  deriving DecidableEq, Repr

/-- The overall assessment of `getCompatibilityAnalysis`: the pair
    `(assessment, recommendation)` chosen from `overallScore`. -/
def overallAssessment (overallScore : Int) : String × String :=
  if overallScore ≥ 75 then
    ("Excellent Match", "Highly compatible. Recommended for marriage with standard rituals.")
  else if overallScore ≥ 60 then
    ("Good Match",
     "Good compatibility with minor considerations. Some remedies may enhance harmony.")
  else if overallScore ≥ 45 then
    ("Average Match",
     "Average compatibility. Consultation with astrologer recommended for detailed analysis and remedies.")
  else
    ("Poor Match",
     "Low compatibility. Significant differences exist. Strong remedies or reconsideration advised.")

/-- The method `getCompatibilityAnalysis(horoscope1, horoscope2, matchScore)`. -/
def getCompatibilityAnalysis (horoscope1 horoscope2 : Horoscope) (matchScore : ℚ) :
    Except JSError Analysis := do
  let rashiScore ← calculateRashiCompatibility horoscope1.rashi horoscope2.rashi
  let rashiFactor : Factor :=
    { factor := "Rashi (Moon Sign) Compatibility",
      score := mathRound (((rashiScore : ℚ) / 12) * 100),
      description := toStr horoscope1.rashi ++ " and " ++ toStr horoscope2.rashi ++ " "
        ++ (if rashiScore ≥ 8 then "are compatible" else "need consideration"),
      status := if rashiScore ≥ 8 then "good" else if rashiScore ≥ 6 then "average" else "poor",
      remedies := none }
  let nakshatraScore :=
    calculateNakshatraCompatibility horoscope1.nakshatra horoscope2.nakshatra
  let nakshatraFactor : Factor :=
    { factor := "Nakshatra Compatibility",
      score := mathRound (((nakshatraScore : ℚ) / 8) * 100),
      description := toStr horoscope1.nakshatra ++ " and " ++ toStr horoscope2.nakshatra
        ++ " create " ++ (if nakshatraScore ≥ 6 then "harmonious" else "challenging")
        ++ " energy",
      status := if nakshatraScore ≥ 6 then "good" else "average",
      remedies := none }
  let manglikScore := calculateManglikCompatibility horoscope1.manglik horoscope2.manglik
  let manglikFactor : Factor :=
    { factor := "Manglik Compatibility",
      score := mathRound (((manglikScore : ℚ) / 8) * 100),
      description := if manglikScore ≥ 8 then "Manglik status matches perfectly"
        else "Manglik mismatch - remedies may be required",
      status := if manglikScore ≥ 8 then "good" else "poor",
      remedies := if manglikScore < 8 then
          some ["Perform specific poojas", "Wear gemstones", "Consult astrologer"]
        else none }
  let ganaScore := calculateGanaCompatibility horoscope1.nakshatra horoscope2.nakshatra
  let ganaFactor : Factor :=
    { factor := "Gana (Temperament) Match",
      score := mathRound (((ganaScore : ℚ) / 6) * 100),
      description := if ganaScore ≥ 3 then "Temperaments are compatible"
        else "Temperament mismatch may cause issues",
      status := if ganaScore ≥ 3 then "good" else "poor",
      remedies := none }
  let overallScore := mathRound ((matchScore / 36) * 100)
  pure
    { factors := [rashiFactor, nakshatraFactor, manglikFactor, ganaFactor],
      overallScore := overallScore,
      assessment := (overallAssessment overallScore).1,
      recommendation := (overallAssessment overallScore).2,
      matchScore := matchScore,
      maximumScore := 36 }

end HoroscopeCalculator

namespace HoroscopeController

open JS

/-- The `rashiCompatiblity` table of `calculateHoroscopeMatch` (spelt as in the source). -/
def rashiCompatiblity : List (String × List String) :=
  [("Aries", ["Leo", "Sagittarius", "Gemini", "Aquarius"]),
   ("Taurus", ["Virgo", "Capricorn", "Cancer", "Pisces"]),
   ("Gemini", ["Libra", "Aquarius", "Aries", "Leo"]),
   ("Cancer", ["Scorpio", "Pisces", "Taurus", "Virgo"]),
   ("Leo", ["Sagittarius", "Aries", "Gemini", "Libra"]),
   ("Virgo", ["Capricorn", "Taurus", "Cancer", "Scorpio"]),
   ("Libra", ["Aquarius", "Gemini", "Leo", "Sagittarius"]),
   ("Scorpio", ["Pisces", "Cancer", "Virgo", "Capricorn"]),
   ("Sagittarius", ["Aries", "Leo", "Libra", "Aquarius"]),
   ("Capricorn", ["Taurus", "Virgo", "Scorpio", "Pisces"]),
   ("Aquarius", ["Gemini", "Libra", "Aries", "Sagittarius"]),
   ("Pisces", ["Cancer", "Scorpio", "Taurus", "Capricorn"])]

/-- The condition `rashiCompatiblity[horoscope1.rashi]?.includes(horoscope2.rashi)`.
    The `?.` guards a nullish table entry only; an inherited entry has no `includes`
    and the call throws. -/
def rashiListed (rashi1 rashi2 : Option String) : Except JSError Bool :=
  match lookupKey rashiCompatiblity (toPropertyKey rashi1) with
  | Lookup.missing => pure false
  | Lookup.inherited => throw JSError.typeError
  | Lookup.own compatible => pure (includes compatible rashi2)

/-- The expression `horoscope.planets?.sun`. -/
def sunOf (horoscope : Horoscope) : Option String :=
  match horoscope.planets with
  | some planets => planets.sun
  | none => none

/-- The rashi block of `calculateHoroscopeMatch`. -/
def rashiPoints (horoscope1 horoscope2 : Horoscope) : Except JSError Nat := do
  let listed ← rashiListed horoscope1.rashi horoscope2.rashi
  if listed then pure 12
  else if horoscope1.rashi = horoscope2.rashi then pure 8
  else pure 4

/-- The nakshatra block of `calculateHoroscopeMatch`. -/
def nakshatraPoints (horoscope1 horoscope2 : Horoscope) : Nat :=
  if horoscope1.nakshatra = horoscope2.nakshatra then 4 else 6

/-- The manglik block of `calculateHoroscopeMatch`. -/
def manglikPoints (horoscope1 horoscope2 : Horoscope) : Nat :=
  if horoscope1.manglik && horoscope2.manglik then 8
  else if !horoscope1.manglik && !horoscope2.manglik then 8
  else if horoscope1.manglik && !horoscope2.manglik then 2
  else 2

/-- The nakshatra pada block of `calculateHoroscopeMatch`. -/
def padaPoints (horoscope1 horoscope2 : Horoscope) : Nat :=
  if horoscope1.nakshatraPada = horoscope2.nakshatraPada then 2 else 4

/-- The planet positions block of `calculateHoroscopeMatch`. -/
def planetPoints (horoscope1 horoscope2 : Horoscope) : Nat :=
  if truthyStr (sunOf horoscope1) && truthyStr (sunOf horoscope2) then
    if sunOf horoscope1 = sunOf horoscope2 then 2 else 3
  else 0

/-- The helper `calculateHoroscopeMatch(horoscope1, horoscope2)` of the controller. -/
def calculateHoroscopeMatch (horoscope1 horoscope2 : Horoscope) : Except JSError Nat := do
  let maxScore := 36
  let rashi ← rashiPoints horoscope1 horoscope2
  let score := rashi + nakshatraPoints horoscope1 horoscope2 + manglikPoints horoscope1 horoscope2
    + padaPoints horoscope1 horoscope2 + planetPoints horoscope1 horoscope2
  pure (Min.min score maxScore)

/-- The object returned by `getMatchAssessment`. -/
structure Assessment where
  level : String
  description : String
  recommendation : String
  deriving DecidableEq, Repr

/-- The helper `getMatchAssessment(score)` of the controller. -/
def getMatchAssessment (score : ℚ) : Assessment :=
  if score ≥ 30 then
    { level := "Excellent",
      description := "Highly compatible match with strong horoscope alignment",
      recommendation := "Highly recommended for marriage" }
  else if score ≥ 24 then
    { level := "Good",
      description := "Good compatibility with minor considerations",
      recommendation := "Recommended with some remedies if needed" }
  else if score ≥ 18 then
    { level := "Average",
      description := "Average compatibility, needs careful consideration",
      recommendation := "Consult an astrologer for detailed analysis" }
  else
    { level := "Poor",
      description := "Low compatibility, significant differences",
      recommendation := "Not recommended without proper remedies" }

end HoroscopeController

namespace MatchController

/-- A pool entry after the `map` step: `{ ...profile.toObject(), matchScore }`. -/
structure ScoredProfile where
  profile : User
  matchScore : Nat
  deriving DecidableEq, Repr

/-- The `map` step of `getMatchSuggestions`: attach `calculateMatchScore(user, profile)`. -/
def scoreProfiles (user : User) (profiles : List User) : List ScoredProfile :=
  profiles.map fun profile =>
    { profile := profile, matchScore := MatchAlgorithms.calculateMatchScore user profile }

/-- The comparator `(a, b) => b.matchScore - a.matchScore`. -/
def compareFn (a b : ScoredProfile) : Int :=
  (b.matchScore : Int) - (a.matchScore : Int)

/-- Insertion step of the stable sort: `x`, which precedes every element of the list in
    the input, moves behind an element `y` only when `compareFn x y > 0`. -/
def insertSorted (cmp : ScoredProfile → ScoredProfile → Int) (x : ScoredProfile) :
    List ScoredProfile → List ScoredProfile
  | [] => [x]
  | y :: ys => if cmp x y > 0 then y :: insertSorted cmp x ys else x :: y :: ys

/-- The call `profiles.sort(cmp)`. ECMAScript requires `Array.prototype.sort` to be
    stable, which for a consistent comparator fixes its result; the result is computed
    here by stable insertion. -/
def sort (cmp : ScoredProfile → ScoredProfile → Int) : List ScoredProfile → List ScoredProfile
  | [] => []
  | x :: xs => insertSorted cmp x (sort cmp xs)

/-- The score, sort and slice steps of `getMatchSuggestions` on the fetched `profiles`:
    `profiles.map(...)`, `profiles.sort(...)`, `profiles.slice(0, 20)`. -/
def getMatchSuggestions (user : User) (profiles : List User) : List ScoredProfile :=
  (sort compareFn (scoreProfiles user profiles)).take 20

end MatchController

/-! ## Dates and ages (`src/utils/helpers.js`, `src/models/User.js`, `src/utils/validators.js`) -/

namespace JS

/-- The ECMAScript constant `msPerDay`. -/
def msPerDay : Int := 86400000

/-- The ECMAScript function `DayFromYear(y)`: the day number of 1 January of year `y`,
    counted from 1 January 1970. -/
def dayFromYear (y : Int) : Int :=
  365 * (y - 1970) + (y - 1969) / 4 - (y - 1901) / 100 + (y - 1601) / 400

/-- The ECMAScript function `TimeFromYear(y)`: the time value of the start of year `y`. -/
def timeFromYear (y : Int) : Int := msPerDay * dayFromYear y

/-- Upward search for the year of a day number, starting from year `y`. -/
def yearUp (day : Int) : Nat → Int → Int
  | 0, y => y
  | fuel + 1, y => if dayFromYear (y + 1) ≤ day then yearUp day fuel (y + 1) else y

/-- Downward search for the year of a day number, starting from year `y`. -/
def yearDown (day : Int) : Nat → Int → Int
  | 0, y => y
  | fuel + 1, y => if day < dayFromYear y then yearDown day fuel (y - 1) else y

/-- The ECMAScript function `YearFromTime(t)`: the largest year `y` with
    `TimeFromYear(y) ≤ t`, found by search from 1970 (a year has at least 365 days, so
    the fuel given suffices). -/
def yearFromTime (t : Int) : Int :=
  let day := t / msPerDay
  if 0 ≤ day then yearUp day (day.toNat / 365 + 1) 1970
  else yearDown day ((-day).toNat / 365 + 1) 1970

/-- The call `new Date(t).getUTCFullYear()` for a time value `t` in milliseconds. -/
def getUTCFullYear (t : Int) : Int := yearFromTime t

/-- A date seen through the local-time getters `getFullYear`, `getMonth`, `getDate`
    (months count from 0). -/
structure CalendarDate where
  getFullYear : Int
  getMonth : Nat
  getDate : Nat
  deriving DecidableEq, Repr

end JS

namespace Helpers

open JS

/-- The helper `calculateAge(dob)`; `dob` is `new Date(dob).getTime()` and `now` is the
    value of `Date.now()` at the call. -/
def calculateAge (dob now : Int) : Int :=
  let difference := now - dob
  let age := getUTCFullYear difference - 1970
  age

end Helpers

namespace UserModel

open JS

/-- The age computed by the `pre('save')` hook of the user schema from
    `this.dateOfBirth`; `now` is the value of `Date.now()`. -/
def preSaveAge (dateOfBirth now : Int) : Int :=
  let difference := now - dateOfBirth
  let age := getUTCFullYear difference - 1970
  age

end UserModel

namespace Validators

open JS

/-- The `custom` step of `commonValidators.dateOfBirth`; `today` is `new Date()` and
    `dob` is `new Date(value)`. A thrown `Error` is returned with its message. -/
def dateOfBirthCustom (today dob : CalendarDate) : Except String Bool :=
  let age := today.getFullYear - dob.getFullYear
  if age < 18 then throw "You must be at least 18 years old"
  else if age > 100 then throw "Please provide a valid date of birth"
  else pure true

end Validators

namespace HoroscopeController

open JS

/-- One entry of the array returned by `getCompatibilityFactors`. -/
structure Factor where
  factor : String
  score : Int
  description : String
  deriving DecidableEq, Repr

/-- String conversion of a possibly-undefined number inside a template literal. -/
def numToStr : Option Int → String
  | some n => toString n
  | none => "undefined"

/-- The helper `getCompatibilityFactors(horoscope1, horoscope2)` of the controller. -/
def getCompatibilityFactors (horoscope1 horoscope2 : Horoscope) : List Factor :=
  [{ factor := "Rashi Compatibility",
     score := 85,
     description := toStr horoscope1.rashi ++ " and " ++ toStr horoscope2.rashi
       ++ " are compatible" },
   { factor := "Nakshatra Match",
     score := 75,
     description := toStr horoscope1.nakshatra ++ " and " ++ toStr horoscope2.nakshatra
       ++ " create harmonious energy" },
   { factor := "Manglik Status",
     score := if horoscope1.manglik = horoscope2.manglik then 90 else 40,
     description := if horoscope1.manglik = horoscope2.manglik then
         "Manglik status matches perfectly"
       else "Manglik mismatch may require remedies" },
   { factor := "Nakshatra Pada",
     score := 70,
     description := "Pada " ++ numToStr horoscope1.nakshatraPada ++ " and Pada "
       ++ numToStr horoscope2.nakshatraPada ++ " combination" },
   { factor := "Overall Harmony",
     score := 80,
     description := "Good overall planetary alignment" }]

/-- The `zodiacSigns` table of `calculateHoroscopeDetails`
    (`{ name, start: { month, day }, end: { month, day } }`). -/
def zodiacSigns : List HoroscopeCalculator.ZodiacSign :=
  [⟨"Aries", 3, 21, 4, 19⟩,
   ⟨"Taurus", 4, 20, 5, 20⟩,
   ⟨"Gemini", 5, 21, 6, 20⟩,
   ⟨"Cancer", 6, 21, 7, 22⟩,
   ⟨"Leo", 7, 23, 8, 22⟩,
   ⟨"Virgo", 8, 23, 9, 22⟩,
   ⟨"Libra", 9, 23, 10, 22⟩,
   ⟨"Scorpio", 10, 23, 11, 21⟩,
   ⟨"Sagittarius", 11, 22, 12, 21⟩,
   ⟨"Capricorn", 12, 22, 1, 19⟩,
   ⟨"Aquarius", 1, 20, 2, 18⟩,
   ⟨"Pisces", 2, 19, 3, 20⟩]

/-- The test in the zodiac loop of `calculateHoroscopeDetails`. -/
def signTest (month day : Nat) (sign : HoroscopeCalculator.ZodiacSign) : Bool :=
  (month == sign.startMonth && decide (day ≥ sign.startDay)) ||
  (month == sign.endMonth && decide (day ≤ sign.endDay))

/-- The rashi assigned by the zodiac loop of `calculateHoroscopeDetails`:
    `let rashi = 'Unknown'`, overwritten by the first sign whose test holds. -/
def detailsRashi (month day : Nat) : String :=
  match zodiacSigns.find? (signTest month day) with
  | some sign => sign.name
  | none => "Unknown"

end HoroscopeController

/-! ## The order of the tiers, `Poor < Average < Good < Excellent` -/

/-- Rank of a `level` of `getMatchAssessment` in the order of the tiers. -/
def levelRank (level : String) : Option Nat :=
  if level = "Poor" then some 0
  else if level = "Average" then some 1
  else if level = "Good" then some 2
  else if level = "Excellent" then some 3
  else none

/-- Rank of an `assessment` of `getCompatibilityAnalysis` in the order of the tiers. -/
def assessmentRank (assessment : String) : Option Nat :=
  if assessment = "Poor Match" then some 0
  else if assessment = "Average Match" then some 1
  else if assessment = "Good Match" then some 2
  else if assessment = "Excellent Match" then some 3
  else none

/-! ## Concrete inputs -/

/-- User A of the worked scenario of the specification. -/
def userA : User :=
  { User.empty with
    age := some 30, education := some "Graduate", profession := some "Engineer",
    currentCity := some "Bangalore", annualIncome := some 1200000,
    diet := some "Vegetarian", smoking := some "No", drinking := some "No",
    community := some "Yadhavar", subCommunity := some "Gowda", gotra := some "Kashyapa" }

/-- User B of the worked scenario of the specification. -/
def userB : User :=
  { User.empty with
    age := some 32, education := some "Graduate", profession := some "Doctor",
    currentCity := some "Bangalore", annualIncome := some 1500000,
    diet := some "Vegetarian", smoking := some "No", drinking := some "No",
    community := some "Yadhavar", subCommunity := some "Gowda", gotra := some "Vasishtha" }

/-- A user whose only stated preference is the age range 25 to 35. -/
def userPreferring25to35 : User :=
  { User.empty with
    preferences := some { ageRange := some { min := 25, max := 35 },
                          education := none, profession := none } }

/-- A user aged 30 with nothing else set. -/
def userAged30 : User := { User.empty with age := some 30 }

/-- A user whose only attribute is a gotra. -/
def userWithGotra : User := { User.empty with gotra := some "Kashyapa" }

/-- A horoscope record with nothing set. -/
def Horoscope.empty : Horoscope :=
  { rashi := none, nakshatra := none, nakshatraPada := none, manglik := false, planets := none }

/-- A horoscope record whose rashi is the string `constructor`. -/
def horoscopeConstructor : Horoscope := { Horoscope.empty with rashi := some "constructor" }

/-- A user with a state but no city. -/
def userWithoutCity : User := { User.empty with currentState := some "Karnataka" }

/-- A user in Bangalore, Karnataka. -/
def userInBangalore : User :=
  { User.empty with currentCity := some "Bangalore", currentState := some "Karnataka" }

/-- A user in Mysore, Karnataka. -/
def userInMysore : User :=
  { User.empty with currentCity := some "Mysore", currentState := some "Karnataka" }

/-- A user in Chennai, Tamil Nadu, India. -/
def userInChennai : User :=
  { User.empty with currentCity := some "Chennai", currentState := some "Tamil Nadu",
                    currentCountry := some "India" }

/-- A user in Delhi, India. -/
def userInDelhi : User :=
  { User.empty with currentCity := some "Delhi", currentState := some "Delhi",
                    currentCountry := some "India" }

/-- A user in Dubai who is willing to relocate. -/
def userInDubai : User :=
  { User.empty with currentCity := some "Dubai", currentState := some "Dubai",
                    currentCountry := some "UAE", willingToRelocate := true }

/-- A user in London who is not willing to relocate. -/
def userInLondon : User :=
  { User.empty with currentCity := some "London", currentState := some "England",
                    currentCountry := some "UK" }

/-- A user whose education is the string `constructor`. -/
def userEducationConstructor : User := { User.empty with education := some "constructor" }

/-- A user whose education is `10th`. -/
def userEducation10th : User := { User.empty with education := some "10th" }

/-- A horoscope with rashi Aries, nakshatra Ashwini, pada 1, not manglik, no planets. -/
def horoscopeAries : Horoscope :=
  { rashi := some "Aries", nakshatra := some "Ashwini", nakshatraPada := some 1,
    manglik := false, planets := none }

/-- The same horoscope with rashi Cancer. -/
def horoscopeCancer : Horoscope := { horoscopeAries with rashi := some "Cancer" }

/-- The same horoscope with rashi Aquarius. -/
def horoscopeAquarius : Horoscope := { horoscopeAries with rashi := some "Aquarius" }

/-- The time value of 2001-01-01T00:00:00Z. -/
def bornNewYear2001 : Int := JS.timeFromYear 2001

/-- The time value of 2020-01-01T12:00:00Z. -/
def noonNewYear2020 : Int := JS.timeFromYear 2020 + 12 * 3600000

/-- The date 31 December 2008. -/
def lastDayOf2008 : JS.CalendarDate := { getFullYear := 2008, getMonth := 11, getDate := 31 }

/-- The date 5 November 2026. -/
def fifthNovember2026 : JS.CalendarDate := { getFullYear := 2026, getMonth := 10, getDate := 5 }

/-- A user whose only attribute is the annual income 5400000000000001. -/
def userIncomeSmaller : User := { User.empty with annualIncome := some 5400000000000001 }

/-- A user whose only attribute is the annual income 9000000000000002. -/
def userIncomeLarger : User := { User.empty with annualIncome := some 9000000000000002 }

/-- A user whose only attribute is the annual income written `1.2`. -/
def userIncomeDecimalA : User := { User.empty with annualIncome := some (JS.toDouble (12 / 10)) }

/-- A user whose only attribute is the annual income written `1.5`. -/
def userIncomeDecimalB : User := { User.empty with annualIncome := some (JS.toDouble (15 / 10)) }

/-- A user whose only attribute is the annual income 0.5. -/
def userIncomeHalf : User := { User.empty with annualIncome := some (1 / 2) }

/-- A user whose only attribute is the annual income 1.5. -/
def userIncomeThreeHalves : User := { User.empty with annualIncome := some (3 / 2) }

/-! ## Theorems -/

namespace MatchAlgorithms

/-- C1: for every pair of user profiles, with any subset of attributes present and any
    values, `calculateMatchScore` returns a number `s` with `0 ≤ s ≤ 100`. -/
theorem calculateMatchScore_bounds (user1 user2 : User) :
    0 ≤ calculateMatchScore user1 user2 ∧ calculateMatchScore user1 user2 ≤ 100 := by
  refine ⟨Nat.zero_le _, ?_⟩
  unfold calculateMatchScore
  exact Nat.min_le_right _ _

end MatchAlgorithms

/-- C2 (failing input): with `rashi` equal to `constructor` on the first horoscope,
    both `HoroscopeCalculator.calculateMatchScore` and the controller's
    `calculateHoroscopeMatch` throw a `TypeError` instead of returning a number
    between 0 and 36. -/
theorem horoscope_match_throws_on_inherited_key :
    HoroscopeCalculator.calculateMatchScore horoscopeConstructor Horoscope.empty
        = Except.error JS.JSError.typeError ∧
      HoroscopeController.calculateHoroscopeMatch horoscopeConstructor Horoscope.empty
        = Except.error JS.JSError.typeError := by
  constructor <;> rfl

namespace HoroscopeCalculator

/-- Exhaustive check of the date ranges over months 1..12 and days 1..31. -/
theorem rangeTest_table :
    ∀ month ∈ List.range 13, ∀ day ∈ List.range 32, 1 ≤ month → 1 ≤ day →
      ∃ sign ∈ zodiac,
        zodiac.filter (rangeTest month day) = [sign] ∧
        zodiac.find? (rangeTest month day) = some sign ∧
        calculateRashi month day = sign.name := by
  decide

/-- C3: for every month in 1..12 and every day in 1..31, exactly one of the twelve
    date-range tests of `calculateRashi` is satisfied, `calculateRashi` returns the
    sign of that range, and the search never falls through to the default. -/
theorem calculateRashi_exactly_one (month day : Nat)
    (hmonth : 1 ≤ month ∧ month ≤ 12) (hday : 1 ≤ day ∧ day ≤ 31) :
    ∃ sign ∈ zodiac,
      zodiac.filter (rangeTest month day) = [sign] ∧
      zodiac.find? (rangeTest month day) = some sign ∧
      calculateRashi month day = sign.name :=
  rangeTest_table month (List.mem_range.mpr (by omega)) day (List.mem_range.mpr (by omega))
    hmonth.1 hday.1

/-- Witness for C3 at month 7, day 23. -/
theorem calculateRashi_exactly_one_witness :
    (1 ≤ 7 ∧ 7 ≤ 12) ∧ (1 ≤ 23 ∧ 23 ≤ 31) ∧
      ∃ sign ∈ zodiac,
        zodiac.filter (rangeTest 7 23) = [sign] ∧
        zodiac.find? (rangeTest 7 23) = some sign ∧
        calculateRashi 7 23 = sign.name :=
  ⟨by decide, by decide, calculateRashi_exactly_one 7 23 (by decide) (by decide)⟩

/-- C4: `calculateRashi(12, d)` is Capricorn for every day `d` with `22 ≤ d ≤ 31`, and
    `calculateRashi(1, d)` is Capricorn for every day `d` with `1 ≤ d ≤ 19`. -/
theorem calculateRashi_capricorn (d : Nat) :
    (22 ≤ d ∧ d ≤ 31 → calculateRashi 12 d = "Capricorn") ∧
    (1 ≤ d ∧ d ≤ 19 → calculateRashi 1 d = "Capricorn") := by
  constructor
  · rintro ⟨h1, h2⟩
    interval_cases d <;> decide
  · rintro ⟨h1, h2⟩
    interval_cases d <;> decide

/-- Witness for C4: month 12, day 25 (and month 1, day 5). -/
theorem calculateRashi_capricorn_witness :
    (22 ≤ 25 ∧ 25 ≤ 31) ∧ calculateRashi 12 25 = "Capricorn" ∧
      (1 ≤ 5 ∧ 5 ≤ 19) ∧ calculateRashi 1 5 = "Capricorn" :=
  ⟨by decide, (calculateRashi_capricorn 25).1 (by decide), by decide,
    (calculateRashi_capricorn 5).2 (by decide)⟩

end HoroscopeCalculator

namespace MatchAlgorithms

/-- C5 (failing input): two profiles with no attribute set score 15, not 0 (lifestyle
    adds 10 and the sub-community comparison adds 5), and a gotra present on one side
    only adds a further 5. -/
theorem calculateMatchScore_empty_profiles :
    calculateMatchScore User.empty User.empty = 15 ∧
      lifestyleScore User.empty User.empty = 10 ∧
      familyScore User.empty User.empty = 5 ∧
      familyScore userWithGotra User.empty = 10 := by
  decide

/-- C6 (failing input): user1 prefers ages 25 to 35 and user2 is 30, yet the age
    test of the preference block fails and user1's side contributes 0. -/
theorem preference_age_in_range_not_counted :
    ageRangeTest { min := 25, max := 35 } (some 30) = false ∧
      preferenceSide userPreferring25to35 userAged30 = 0 ∧
      preferenceScore userPreferring25to35 userAged30 = 0 := by
  decide

/-- C7 (failing input): for users A and B of the worked scenario the eight sub-factors
    are 15, 15, 5, 10, 10, 10, 10, 0 as stated, but no community bonus is added (the
    bonus tests `subCommunity`, which is Gowda, not `community`), so the code returns 75. -/
theorem calculateMatchScore_scenario :
    ageScore userA userB = 15 ∧ educationScore userA userB = 15 ∧
      professionScore userA userB = 5 ∧ locationScore userA userB = 10 ∧
      incomeScore userA userB = 10 ∧ lifestyleScore userA userB = 10 ∧
      familyScore userA userB = 10 ∧ preferenceScore userA userB = 0 ∧
      communityBonus userA userB = 0 ∧ calculateMatchScore userA userB = 75 := by
  decide!

end MatchAlgorithms

namespace HoroscopeCalculator

/-- C10: `isManglik(rashi, dob)` is true exactly when `rashi` is Aries, Scorpio or
    Capricorn, or the birth hour `h` satisfies `0 ≤ h < 4`; in particular it is true
    for Scorpio at hour 14. -/
theorem isManglik_iff (rashi : String) (dob : BirthDate) :
    (isManglik rashi dob = true ↔
      (rashi = "Aries" ∨ rashi = "Scorpio" ∨ rashi = "Capricorn") ∨
        (0 ≤ dob.getHours ∧ dob.getHours < 4)) ∧
    isManglik "Scorpio" { dob with getHours := 14 } = true := by
  constructor
  · simp [isManglik, manglikRashis]
  · simp [isManglik, manglikRashis]

end HoroscopeCalculator

namespace MatchController

/-- Inserting an element keeps the elements of the list. -/
theorem insertSorted_perm (cmp : ScoredProfile → ScoredProfile → Int) (x : ScoredProfile)
    (l : List ScoredProfile) : (insertSorted cmp x l).Perm (x :: l) := by
  induction l with
  | nil => exact List.Perm.refl _
  | cons y ys ih =>
    unfold insertSorted
    split
    · exact (List.Perm.cons y ih).trans (List.Perm.swap x y ys)
    · exact List.Perm.refl _

/-- The sort returns a permutation of its input. -/
theorem sort_perm (cmp : ScoredProfile → ScoredProfile → Int) (l : List ScoredProfile) :
    (sort cmp l).Perm l := by
  induction l with
  | nil => exact List.Perm.refl _
  | cons x xs ih => exact (insertSorted_perm cmp x _).trans (List.Perm.cons x ih)

/-- Inserting into a list with non-increasing scores keeps the scores non-increasing. -/
theorem insertSorted_sorted (x : ScoredProfile) (l : List ScoredProfile)
    (h : l.Pairwise (fun a b => b.matchScore ≤ a.matchScore)) :
    (insertSorted compareFn x l).Pairwise (fun a b => b.matchScore ≤ a.matchScore) := by
  induction l with
  | nil => simp [insertSorted]
  | cons y ys ih =>
    rw [List.pairwise_cons] at h
    unfold insertSorted
    split
    · rename_i hgt
      rw [List.pairwise_cons]
      refine ⟨?_, ih h.2⟩
      intro z hz
      rcases List.mem_cons.mp ((insertSorted_perm compareFn x ys).subset hz) with hzx | hzy
      · subst hzx
        unfold compareFn at hgt
        omega
      · exact h.1 z hzy
    · rename_i hle
      rw [List.pairwise_cons]
      refine ⟨?_, List.pairwise_cons.mpr h⟩
      intro z hz
      unfold compareFn at hle
      rcases List.mem_cons.mp hz with hzy | hzys
      · subst hzy
        omega
      · have := h.1 z hzys
        omega

/-- After the sort the scores are non-increasing. -/
theorem sort_sorted (l : List ScoredProfile) :
    (sort compareFn l).Pairwise (fun a b => b.matchScore ≤ a.matchScore) := by
  induction l with
  | nil => simp [sort]
  | cons x xs ih => exact insertSorted_sorted x _ ih

/-- Inserting an element does not disturb the order of the entries of one score. -/
theorem insertSorted_filter (s : Nat) (x : ScoredProfile) (l : List ScoredProfile) :
    (insertSorted compareFn x l).filter (fun e => e.matchScore == s)
      = (x :: l).filter (fun e => e.matchScore == s) := by
  induction l with
  | nil => rfl
  | cons y ys ih =>
    unfold insertSorted
    split
    · rename_i hgt
      unfold compareFn at hgt
      by_cases hy : y.matchScore = s
      · have hx : ¬ x.matchScore = s := by omega
        simp [List.filter_cons, hy, hx] at ih ⊢
        exact ih
      · simp [List.filter_cons, hy] at ih ⊢
        exact ih
    · rfl

/-- The sort keeps the entries of one score in their input order. -/
theorem sort_filter (s : Nat) (l : List ScoredProfile) :
    (sort compareFn l).filter (fun e => e.matchScore == s)
      = l.filter (fun e => e.matchScore == s) := by
  induction l with
  | nil => rfl
  | cons x xs ih =>
    show (insertSorted compareFn x (sort compareFn xs)).filter _ = _
    rw [insertSorted_filter, List.filter_cons, List.filter_cons, ih]

/-- Two lists with non-increasing scores that agree score by score are equal. -/
theorem eq_of_sorted_of_filter_eq (l₁ l₂ : List ScoredProfile)
    (h₁ : l₁.Pairwise (fun a b => b.matchScore ≤ a.matchScore))
    (h₂ : l₂.Pairwise (fun a b => b.matchScore ≤ a.matchScore))
    (hfilter : ∀ s : Nat, l₁.filter (fun e => e.matchScore == s)
      = l₂.filter (fun e => e.matchScore == s)) : l₁ = l₂ := by
  induction l₁ generalizing l₂ with
  | nil =>
    cases l₂ with
    | nil => rfl
    | cons y ys =>
      have := hfilter y.matchScore
      simp [List.filter_cons] at this
  | cons x xs ih =>
    cases l₂ with
    | nil =>
      have := hfilter x.matchScore
      simp [List.filter_cons] at this
    | cons y ys =>
      rw [List.pairwise_cons] at h₁ h₂
      have hxy : x.matchScore = y.matchScore := by
        rcases Nat.lt_trichotomy x.matchScore y.matchScore with hlt | heq | hgt
        · exfalso
          have hf := hfilter y.matchScore
          have hx : ¬ x.matchScore = y.matchScore := by omega
          have hxs : xs.filter (fun e => e.matchScore == y.matchScore) = [] := by
            rw [List.filter_eq_nil_iff]
            intro z hz
            have := h₁.1 z hz
            simp
            omega
          simp [List.filter_cons, hx, hxs] at hf
        · exact heq
        · exfalso
          have hf := hfilter x.matchScore
          have hy : ¬ y.matchScore = x.matchScore := by omega
          have hys : ys.filter (fun e => e.matchScore == x.matchScore) = [] := by
            rw [List.filter_eq_nil_iff]
            intro z hz
            have := h₂.1 z hz
            simp
            omega
          simp [List.filter_cons, hy, hys] at hf
      have hhead := hfilter x.matchScore
      simp [List.filter_cons, hxy] at hhead
      obtain ⟨hx, htail⟩ := hhead
      subst hx
      congr 1
      apply ih ys h₁.2 h₂.2
      intro s
      by_cases hs : x.matchScore = s
      · subst hs
        simpa using htail
      · have := hfilter s
        simpa [List.filter_cons, hs] using this

/-- The result of the sort is the only list with non-increasing scores that keeps the
    input order within every score: any stable sort by this comparator returns it. -/
theorem sort_unique (l sorted : List ScoredProfile)
    (hsorted : sorted.Pairwise (fun a b => b.matchScore ≤ a.matchScore))
    (hstable : ∀ s : Nat, sorted.filter (fun e => e.matchScore == s)
      = l.filter (fun e => e.matchScore == s)) :
    sorted = sort compareFn l :=
  eq_of_sorted_of_filter_eq _ _ hsorted (sort_sorted l)
    (fun s => (hstable s).trans (sort_filter s l).symm)

/-- C8: the list returned by `getMatchSuggestions` has length `min(20, pool size)`, each
    entry is a pool candidate carrying `matchScore = calculateMatchScore(user, candidate)`,
    the scores are non-increasing along the list, and the candidates left out (the list
    `rest`, which together with the result makes up the scored pool) never have a
    strictly higher score than a candidate that is returned. -/
theorem getMatchSuggestions_top (user : User) (pool : List User) :
    (getMatchSuggestions user pool).length = Min.min 20 pool.length ∧
    (∀ e ∈ getMatchSuggestions user pool,
      e.profile ∈ pool ∧ e.matchScore = MatchAlgorithms.calculateMatchScore user e.profile) ∧
    (getMatchSuggestions user pool).Pairwise (fun a b => b.matchScore ≤ a.matchScore) ∧
    ∃ rest : List ScoredProfile,
      (getMatchSuggestions user pool ++ rest).Perm (scoreProfiles user pool) ∧
      ∀ a ∈ getMatchSuggestions user pool, ∀ b ∈ rest, b.matchScore ≤ a.matchScore := by
  have hperm := sort_perm compareFn (scoreProfiles user pool)
  have hsorted := sort_sorted (scoreProfiles user pool)
  refine ⟨?_, ?_, ?_, (sort compareFn (scoreProfiles user pool)).drop 20, ?_, ?_⟩
  · unfold getMatchSuggestions
    rw [List.length_take, hperm.length_eq]
    simp [scoreProfiles]
  · intro e he
    have hmem : e ∈ scoreProfiles user pool :=
      hperm.subset (List.mem_of_mem_take he)
    unfold scoreProfiles at hmem
    obtain ⟨p, hp, rfl⟩ := List.mem_map.mp hmem
    exact ⟨hp, rfl⟩
  · exact hsorted.sublist (List.take_sublist _ _)
  · unfold getMatchSuggestions
    rw [List.take_append_drop]
    exact hperm
  · intro a ha b hb
    unfold getMatchSuggestions at ha
    have hsplit := hsorted
    rw [← List.take_append_drop 20 (sort compareFn (scoreProfiles user pool)),
      List.pairwise_append] at hsplit
    exact hsplit.2.2 a ha b hb

/-- C9: the ranking of `getMatchSuggestions` is stable: for every score `s`, the returned
    candidates with score `s` are, in the same order, an initial segment of the pool
    candidates with score `s`; so two returned candidates with equal score keep their
    relative order of the input pool. -/
theorem getMatchSuggestions_stable (user : User) (pool : List User) (s : Nat) :
    (getMatchSuggestions user pool).filter (fun e => e.matchScore == s)
      <+: (scoreProfiles user pool).filter (fun e => e.matchScore == s) := by
  unfold getMatchSuggestions
  rw [← sort_filter s (scoreProfiles user pool)]
  exact (List.take_prefix 20 _).filter _

end MatchController

namespace JS

/-- A key that is not inherited is either an own key or missing. -/
theorem lookupKey_ne_inherited {α : Type} (table : List (String × α)) (key : String)
    (hkey : key ∉ objectPrototypeKeys) : lookupKey table key ≠ Lookup.inherited := by
  unfold lookupKey
  cases table.lookup key with
  | some v => simp
  | none => simp [hkey]

end JS

namespace HoroscopeCalculator

open JS

/-- Whenever the calculator returns, the sign compatibility is one of 12, 8, 4, 6. -/
theorem calculateRashiCompatibility_ok_le (rashi1 rashi2 : Option String) (s : Nat)
    (h : calculateRashiCompatibility rashi1 rashi2 = Except.ok s) : s ≤ 12 := by
  unfold calculateRashiCompatibility at h
  split at h
  · cases h; decide
  · cases h
  · split_ifs at h <;> cases h <;> decide

/-- The sign compatibility returns unless the key is inherited. -/
theorem calculateRashiCompatibility_ok (rashi1 rashi2 : Option String)
    (hkey : toPropertyKey rashi1 ∉ objectPrototypeKeys) :
    ∃ s, calculateRashiCompatibility rashi1 rashi2 = Except.ok s := by
  have hne := lookupKey_ne_inherited compatibilityMatrix _ hkey
  unfold calculateRashiCompatibility
  split
  · exact ⟨_, rfl⟩
  · rename_i heq
    exact absurd heq hne
  · split_ifs <;> exact ⟨_, rfl⟩

/-- The bhakoot compatibility returns unless the key is inherited. -/
theorem calculateBhakootCompatibility_ok (rashi1 rashi2 : Option String)
    (hkey : toPropertyKey rashi1 ∉ objectPrototypeKeys) :
    ∃ s, calculateBhakootCompatibility rashi1 rashi2 = Except.ok s := by
  have hne := lookupKey_ne_inherited bhakootCompatible _ hkey
  unfold calculateBhakootCompatibility
  split
  · exact ⟨_, rfl⟩
  · rename_i heq
    exact absurd heq hne
  · exact ⟨_, rfl⟩

/-- Outside the inherited keys the calculator returns a number of at most 36. -/
theorem calculateMatchScore_ok_of_own_or_missing (horoscope1 horoscope2 : Horoscope)
    (hkey : toPropertyKey horoscope1.rashi ∉ objectPrototypeKeys) :
    ∃ s, calculateMatchScore horoscope1 horoscope2 = Except.ok s ∧ s ≤ 36 := by
  obtain ⟨r, hr⟩ := calculateRashiCompatibility_ok horoscope1.rashi horoscope2.rashi hkey
  obtain ⟨b, hb⟩ := calculateBhakootCompatibility_ok horoscope1.rashi horoscope2.rashi hkey
  have hscore : calculateMatchScore horoscope1 horoscope2 = Except.ok (Min.min
      (r + calculateNakshatraCompatibility horoscope1.nakshatra horoscope2.nakshatra
        + calculateManglikCompatibility horoscope1.manglik horoscope2.manglik
        + calculateGanaCompatibility horoscope1.nakshatra horoscope2.nakshatra + b) 36) := by
    unfold calculateMatchScore
    rw [hr, hb]
    rfl
  exact ⟨_, hscore, Nat.min_le_right _ 36⟩

/-- On an inherited key the calculator throws. -/
theorem calculateMatchScore_error_of_inherited (horoscope1 horoscope2 : Horoscope)
    (hkey : toPropertyKey horoscope1.rashi ∈ objectPrototypeKeys) :
    calculateMatchScore horoscope1 horoscope2 = Except.error JSError.typeError := by
  have htable : ∀ key ∈ objectPrototypeKeys, compatibilityMatrix.lookup key = none := by
    decide
  unfold calculateMatchScore calculateRashiCompatibility lookupKey
  rw [htable _ hkey]
  simp [hkey]
  rfl

end HoroscopeCalculator

namespace HoroscopeController

open JS

/-- Outside the inherited keys the controller's helper returns a number of at most 36. -/
theorem calculateHoroscopeMatch_ok_of_own_or_missing (horoscope1 horoscope2 : Horoscope)
    (hkey : toPropertyKey horoscope1.rashi ∉ objectPrototypeKeys) :
    ∃ s, calculateHoroscopeMatch horoscope1 horoscope2 = Except.ok s ∧ s ≤ 36 := by
  have hne := lookupKey_ne_inherited rashiCompatiblity _ hkey
  have hlisted : ∃ b, rashiListed horoscope1.rashi horoscope2.rashi = Except.ok b := by
    unfold rashiListed
    split
    · exact ⟨_, rfl⟩
    · rename_i heq
      exact absurd heq hne
    · exact ⟨_, rfl⟩
  obtain ⟨b, hb⟩ := hlisted
  have hrashi : ∃ r, rashiPoints horoscope1 horoscope2 = Except.ok r := by
    unfold rashiPoints
    rw [hb]
    show ∃ r, (if b = true then pure 12
      else if horoscope1.rashi = horoscope2.rashi then pure 8 else pure 4) = Except.ok r
    split_ifs <;> exact ⟨_, rfl⟩
  obtain ⟨r, hr⟩ := hrashi
  have hscore : calculateHoroscopeMatch horoscope1 horoscope2 = Except.ok (Min.min
      (r + nakshatraPoints horoscope1 horoscope2 + manglikPoints horoscope1 horoscope2
        + padaPoints horoscope1 horoscope2 + planetPoints horoscope1 horoscope2) 36) := by
    unfold calculateHoroscopeMatch
    rw [hr]
    rfl
  exact ⟨_, hscore, Nat.min_le_right _ 36⟩

/-- On an inherited key the controller's helper throws. -/
theorem calculateHoroscopeMatch_error_of_inherited (horoscope1 horoscope2 : Horoscope)
    (hkey : toPropertyKey horoscope1.rashi ∈ objectPrototypeKeys) :
    calculateHoroscopeMatch horoscope1 horoscope2 = Except.error JSError.typeError := by
  have htable : ∀ key ∈ objectPrototypeKeys, rashiCompatiblity.lookup key = none := by
    decide
  unfold calculateHoroscopeMatch rashiPoints rashiListed lookupKey
  rw [htable _ hkey]
  simp [hkey]
  rfl

end HoroscopeController

namespace HoroscopeController

/-- C11: for every numeric score `s`, `getMatchAssessment(s)` has level Excellent iff
    `s ≥ 30`, Good iff `24 ≤ s < 30`, Average iff `18 ≤ s < 24`, and Poor iff `s < 18`. -/
theorem getMatchAssessment_level (s : ℚ) :
    ((getMatchAssessment s).level = "Excellent" ↔ s ≥ 30) ∧
    ((getMatchAssessment s).level = "Good" ↔ 24 ≤ s ∧ s < 30) ∧
    ((getMatchAssessment s).level = "Average" ↔ 18 ≤ s ∧ s < 24) ∧
    ((getMatchAssessment s).level = "Poor" ↔ s < 18) := by
  unfold getMatchAssessment
  split_ifs with h30 h24 h18
  · refine ⟨⟨fun _ => h30, fun _ => rfl⟩, ⟨fun h => absurd h (by decide), ?_⟩,
      ⟨fun h => absurd h (by decide), ?_⟩, ⟨fun h => absurd h (by decide), ?_⟩⟩
    · rintro ⟨_, h⟩; linarith
    · rintro ⟨_, h⟩; linarith
    · intro h; linarith
  · refine ⟨⟨fun h => absurd h (by decide), fun h => absurd h h30⟩,
      ⟨fun _ => ⟨h24, lt_of_not_ge h30⟩, fun _ => rfl⟩,
      ⟨fun h => absurd h (by decide), ?_⟩, ⟨fun h => absurd h (by decide), ?_⟩⟩
    · rintro ⟨_, h⟩; linarith
    · intro h; linarith
  · refine ⟨⟨fun h => absurd h (by decide), fun h => absurd h h30⟩,
      ⟨fun h => absurd h (by decide), fun h => absurd h.1 h24⟩,
      ⟨fun _ => ⟨h18, lt_of_not_ge h24⟩, fun _ => rfl⟩,
      ⟨fun h => absurd h (by decide), ?_⟩⟩
    intro h; linarith
  · refine ⟨⟨fun h => absurd h (by decide), fun h => absurd h h30⟩,
      ⟨fun h => absurd h (by decide), fun h => absurd h.1 h24⟩,
      ⟨fun h => absurd h (by decide), fun h => absurd h.1 h18⟩,
      ⟨fun _ => lt_of_not_ge h18, fun _ => rfl⟩⟩

end HoroscopeController

namespace JS

/-- A rounded percentage of a part of a whole lies between 0 and 100. -/
theorem mathRound_percent_bounds (part whole : Nat) (hwhole : 0 < whole) (hpart : part ≤ whole) :
    0 ≤ mathRound (((part : ℚ) / (whole : ℚ)) * 100) ∧
      mathRound (((part : ℚ) / (whole : ℚ)) * 100) ≤ 100 := by
  have hw : (0 : ℚ) < (whole : ℚ) := by exact_mod_cast hwhole
  have hp : (part : ℚ) ≤ (whole : ℚ) := by exact_mod_cast hpart
  have hnonneg : (0 : ℚ) ≤ ((part : ℚ) / (whole : ℚ)) * 100 := by positivity
  have hle : ((part : ℚ) / (whole : ℚ)) * 100 ≤ 100 := by
    have : (part : ℚ) / (whole : ℚ) ≤ 1 := (div_le_one hw).mpr hp
    linarith
  unfold mathRound
  constructor
  · apply Int.floor_nonneg.mpr
    linarith
  · have : ⌊((part : ℚ) / (whole : ℚ)) * 100 + 1 / 2⌋ < 101 := by
      rw [Int.floor_lt]
      push_cast
      linarith
    omega

end JS

namespace HoroscopeCalculator

open JS

/-- The nakshatra compatibility is at most 8. -/
theorem calculateNakshatraCompatibility_le (n1 n2 : Option String) :
    calculateNakshatraCompatibility n1 n2 ≤ 8 := by
  unfold calculateNakshatraCompatibility
  split_ifs <;> decide

/-- The manglik compatibility is at most 8. -/
theorem calculateManglikCompatibility_le (m1 m2 : Bool) :
    calculateManglikCompatibility m1 m2 ≤ 8 := by
  cases m1 <;> cases m2 <;> decide

/-- The gana compatibility is at most 6. -/
theorem calculateGanaCompatibility_le (n1 n2 : Option String) :
    calculateGanaCompatibility n1 n2 ≤ 6 := by
  unfold calculateGanaCompatibility
  simp only []
  split_ifs <;> decide

/-- What `getCompatibilityAnalysis` returns, whenever it returns. -/
theorem getCompatibilityAnalysis_fields (horoscope1 horoscope2 : Horoscope) (matchScore : ℚ)
    (report : Analysis)
    (h : getCompatibilityAnalysis horoscope1 horoscope2 matchScore = Except.ok report) :
    ∃ rashiScore, calculateRashiCompatibility horoscope1.rashi horoscope2.rashi
        = Except.ok rashiScore ∧
      report.factors.map (fun f => (f.factor, f.score)) =
        [("Rashi (Moon Sign) Compatibility", mathRound (((rashiScore : ℚ) / 12) * 100)),
         ("Nakshatra Compatibility",
          mathRound (((calculateNakshatraCompatibility horoscope1.nakshatra
            horoscope2.nakshatra : ℚ) / 8) * 100)),
         ("Manglik Compatibility",
          mathRound (((calculateManglikCompatibility horoscope1.manglik
            horoscope2.manglik : ℚ) / 8) * 100)),
         ("Gana (Temperament) Match",
          mathRound (((calculateGanaCompatibility horoscope1.nakshatra
            horoscope2.nakshatra : ℚ) / 6) * 100))] ∧
      report.overallScore = mathRound ((matchScore / 36) * 100) ∧
      report.assessment = (overallAssessment report.overallScore).1 ∧
      report.recommendation = (overallAssessment report.overallScore).2 := by
  unfold getCompatibilityAnalysis at h
  cases hr : calculateRashiCompatibility horoscope1.rashi horoscope2.rashi with
  | error e =>
    rw [hr] at h
    cases h
  | ok rashiScore =>
    rw [hr] at h
    injection h with h
    subst h
    exact ⟨rashiScore, rfl, rfl, rfl, rfl, rfl⟩

/-- The analysis is returned unless the rashi key is inherited. -/
theorem getCompatibilityAnalysis_ok (horoscope1 horoscope2 : Horoscope) (matchScore : ℚ)
    (hkey : toPropertyKey horoscope1.rashi ∉ objectPrototypeKeys) :
    ∃ report, getCompatibilityAnalysis horoscope1 horoscope2 matchScore = Except.ok report := by
  obtain ⟨r, hr⟩ := calculateRashiCompatibility_ok horoscope1.rashi horoscope2.rashi hkey
  unfold getCompatibilityAnalysis
  rw [hr]
  exact ⟨_, rfl⟩

end HoroscopeCalculator

namespace HoroscopeCalculator

open JS

/-- The four tiers of the percentage classifier. -/
theorem overallAssessment_cases (p : Int) :
    ((overallAssessment p).1 = "Excellent Match" ↔ p ≥ 75) ∧
    ((overallAssessment p).1 = "Good Match" ↔ 60 ≤ p ∧ p < 75) ∧
    ((overallAssessment p).1 = "Average Match" ↔ 45 ≤ p ∧ p < 60) ∧
    ((overallAssessment p).1 = "Poor Match" ↔ p < 45) := by
  unfold overallAssessment
  split_ifs with h75 h60 h45
  · refine ⟨⟨fun _ => h75, fun _ => rfl⟩, ⟨fun h => absurd h (by decide), ?_⟩,
      ⟨fun h => absurd h (by decide), ?_⟩, ⟨fun h => absurd h (by decide), ?_⟩⟩
    · rintro ⟨_, h⟩; omega
    · rintro ⟨_, h⟩; omega
    · intro h; omega
  · refine ⟨⟨fun h => absurd h (by decide), fun h => absurd h h75⟩,
      ⟨fun _ => ⟨h60, by omega⟩, fun _ => rfl⟩,
      ⟨fun h => absurd h (by decide), ?_⟩, ⟨fun h => absurd h (by decide), ?_⟩⟩
    · rintro ⟨_, h⟩; omega
    · intro h; omega
  · refine ⟨⟨fun h => absurd h (by decide), fun h => absurd h h75⟩,
      ⟨fun h => absurd h (by decide), fun h => absurd h.1 h60⟩,
      ⟨fun _ => ⟨h45, by omega⟩, fun _ => rfl⟩,
      ⟨fun h => absurd h (by decide), ?_⟩⟩
    intro h; omega
  · refine ⟨⟨fun h => absurd h (by decide), fun h => absurd h h75⟩,
      ⟨fun h => absurd h (by decide), fun h => absurd h.1 h60⟩,
      ⟨fun h => absurd h (by decide), fun h => absurd h.1 h45⟩,
      ⟨fun _ => by omega, fun _ => rfl⟩⟩

/-- C12: for every `matchScore` in 0..36, the analysis `getCompatibilityAnalysis` returns
    has `overallScore = round(100 * matchScore / 36)`, a percentage in 0..100, and its
    assessment is Excellent Match iff `overallScore ≥ 75`, Good Match iff
    `60 ≤ overallScore < 75`, Average Match iff `45 ≤ overallScore < 60`, and Poor Match
    otherwise; the analysis is returned whenever the first rashi is not an inherited key. -/
theorem getCompatibilityAnalysis_overall (horoscope1 horoscope2 : Horoscope) (matchScore : Nat)
    (hscore : matchScore ≤ 36) :
    (∀ report, getCompatibilityAnalysis horoscope1 horoscope2 (matchScore : ℚ)
        = Except.ok report →
      report.overallScore = mathRound (100 * (matchScore : ℚ) / 36) ∧
      (0 ≤ report.overallScore ∧ report.overallScore ≤ 100) ∧
      (report.assessment = "Excellent Match" ↔ report.overallScore ≥ 75) ∧
      (report.assessment = "Good Match" ↔
        60 ≤ report.overallScore ∧ report.overallScore < 75) ∧
      (report.assessment = "Average Match" ↔
        45 ≤ report.overallScore ∧ report.overallScore < 60) ∧
      (report.assessment = "Poor Match" ↔ report.overallScore < 45)) ∧
    (toPropertyKey horoscope1.rashi ∉ objectPrototypeKeys →
      ∃ report, getCompatibilityAnalysis horoscope1 horoscope2 (matchScore : ℚ)
        = Except.ok report) := by
  refine ⟨?_, getCompatibilityAnalysis_ok horoscope1 horoscope2 _⟩
  intro report hreport
  obtain ⟨_, _, _, hoverall, hassess, _⟩ :=
    getCompatibilityAnalysis_fields horoscope1 horoscope2 _ report hreport
  have hbounds := mathRound_percent_bounds matchScore 36 (by decide) hscore
  have hcast : ((36 : Nat) : ℚ) = 36 := by norm_num
  rw [hcast, ← hoverall] at hbounds
  refine ⟨?_, hbounds, ?_⟩
  · rw [hoverall]
    congr 1
    ring
  · rw [hassess]
    exact overallAssessment_cases report.overallScore

/-- Witness for C12: two horoscopes with nothing set and `matchScore = 27`. -/
theorem getCompatibilityAnalysis_overall_witness :
    27 ≤ 36 ∧ toPropertyKey Horoscope.empty.rashi ∉ objectPrototypeKeys ∧
      ∃ report, getCompatibilityAnalysis Horoscope.empty Horoscope.empty ((27 : Nat) : ℚ)
          = Except.ok report ∧
        report.overallScore = mathRound (100 * ((27 : Nat) : ℚ) / 36) ∧
        (report.assessment = "Excellent Match" ↔ report.overallScore ≥ 75) :=
  ⟨by decide, by decide,
    let ⟨report, hreport⟩ :=
      (getCompatibilityAnalysis_overall Horoscope.empty Horoscope.empty 27 (by decide)).2
        (by decide)
    ⟨report, hreport,
      ((getCompatibilityAnalysis_overall Horoscope.empty Horoscope.empty 27 (by decide)).1
        report hreport).1,
      ((getCompatibilityAnalysis_overall Horoscope.empty Horoscope.empty 27 (by decide)).1
        report hreport).2.2.1⟩⟩

/-- C20: for every pair of horoscopes, the factors `getCompatibilityAnalysis` reports are
    the rashi, nakshatra, manglik and gana factors, each with
    `score = round(100 * sub-score / sub-score-max)` for the maxima 12, 8, 8 and 6, the
    sub-score being what the corresponding `calculate*Compatibility` returns, and every
    such percentage lies in 0..100; the factors are reported whenever the first rashi is
    not an inherited key. -/
theorem getCompatibilityAnalysis_factors (horoscope1 horoscope2 : Horoscope) (matchScore : ℚ) :
    (∀ report, getCompatibilityAnalysis horoscope1 horoscope2 matchScore = Except.ok report →
      ∃ rashiScore, calculateRashiCompatibility horoscope1.rashi horoscope2.rashi
          = Except.ok rashiScore ∧
        report.factors.map (fun f => (f.factor, f.score)) =
          [("Rashi (Moon Sign) Compatibility", mathRound (100 * (rashiScore : ℚ) / 12)),
           ("Nakshatra Compatibility",
            mathRound (100 * (calculateNakshatraCompatibility horoscope1.nakshatra
              horoscope2.nakshatra : ℚ) / 8)),
           ("Manglik Compatibility",
            mathRound (100 * (calculateManglikCompatibility horoscope1.manglik
              horoscope2.manglik : ℚ) / 8)),
           ("Gana (Temperament) Match",
            mathRound (100 * (calculateGanaCompatibility horoscope1.nakshatra
              horoscope2.nakshatra : ℚ) / 6))] ∧
        ∀ f ∈ report.factors, 0 ≤ f.score ∧ f.score ≤ 100) ∧
    (toPropertyKey horoscope1.rashi ∉ objectPrototypeKeys →
      ∃ report, getCompatibilityAnalysis horoscope1 horoscope2 matchScore
        = Except.ok report) := by
  refine ⟨?_, getCompatibilityAnalysis_ok horoscope1 horoscope2 _⟩
  intro report hreport
  obtain ⟨rashiScore, hrashi, hfactors, _⟩ :=
    getCompatibilityAnalysis_fields horoscope1 horoscope2 _ report hreport
  have hswap : ∀ x y : ℚ, 100 * x / y = (x / y) * 100 := fun x y => by ring
  refine ⟨rashiScore, hrashi, ?_, ?_⟩
  · rw [hfactors]
    simp only [hswap]
  · have h12 := mathRound_percent_bounds rashiScore 12 (by decide)
      (calculateRashiCompatibility_ok_le _ _ _ hrashi)
    have h8n := mathRound_percent_bounds _ 8 (by decide)
      (calculateNakshatraCompatibility_le horoscope1.nakshatra horoscope2.nakshatra)
    have h8m := mathRound_percent_bounds _ 8 (by decide)
      (calculateManglikCompatibility_le horoscope1.manglik horoscope2.manglik)
    have h6 := mathRound_percent_bounds _ 6 (by decide)
      (calculateGanaCompatibility_le horoscope1.nakshatra horoscope2.nakshatra)
    have hc12 : ((12 : Nat) : ℚ) = 12 := by norm_num
    have hc8 : ((8 : Nat) : ℚ) = 8 := by norm_num
    have hc6 : ((6 : Nat) : ℚ) = 6 := by norm_num
    rw [hc12] at h12
    rw [hc8] at h8n h8m
    rw [hc6] at h6
    have hscores : ∀ p ∈ report.factors.map (fun f => (f.factor, f.score)),
        0 ≤ p.2 ∧ p.2 ≤ 100 := by
      rw [hfactors]
      intro p hp
      simp only [List.mem_cons, List.mem_singleton, List.not_mem_nil, or_false] at hp
      rcases hp with rfl | rfl | rfl | rfl
      · exact h12
      · exact h8n
      · exact h8m
      · exact h6
    intro f hf
    exact hscores (f.factor, f.score) (List.mem_map.mpr ⟨f, hf, rfl⟩)

/-- Witness for C20: two horoscopes with nothing set. -/
theorem getCompatibilityAnalysis_factors_witness :
    toPropertyKey Horoscope.empty.rashi ∉ objectPrototypeKeys ∧
      ∃ report, getCompatibilityAnalysis Horoscope.empty Horoscope.empty 25
          = Except.ok report ∧
        ∃ rashiScore, calculateRashiCompatibility Horoscope.empty.rashi Horoscope.empty.rashi
            = Except.ok rashiScore ∧
          report.factors.map (fun f => (f.factor, f.score)) =
            [("Rashi (Moon Sign) Compatibility", mathRound (100 * (rashiScore : ℚ) / 12)),
             ("Nakshatra Compatibility",
              mathRound (100 * (calculateNakshatraCompatibility Horoscope.empty.nakshatra
                Horoscope.empty.nakshatra : ℚ) / 8)),
             ("Manglik Compatibility",
              mathRound (100 * (calculateManglikCompatibility Horoscope.empty.manglik
                Horoscope.empty.manglik : ℚ) / 8)),
             ("Gana (Temperament) Match",
              mathRound (100 * (calculateGanaCompatibility Horoscope.empty.nakshatra
                Horoscope.empty.nakshatra : ℚ) / 6))] ∧
          ∀ f ∈ report.factors, 0 ≤ f.score ∧ f.score ≤ 100 :=
  ⟨by decide,
    let ⟨report, hreport⟩ :=
      (getCompatibilityAnalysis_factors Horoscope.empty Horoscope.empty 25).2 (by decide)
    ⟨report, hreport,
      (getCompatibilityAnalysis_factors Horoscope.empty Horoscope.empty 25).1 report hreport⟩⟩

end HoroscopeCalculator

namespace HoroscopeCalculator

open JS

/-- C13 (failing input): `constructor` is not one of the twelve signs, yet
    `calculateRashiCompatibility` does not return 6 for it: it throws a `TypeError`. -/
theorem calculateRashiCompatibility_throws_on_inherited_key :
    compatibilityMatrix.lookup "constructor" = none ∧
      calculateRashiCompatibility (some "constructor") (some "Leo")
        = Except.error JSError.typeError := by
  constructor <;> rfl

/-- For each of the twelve signs the result follows the sign's row of the table. -/
theorem calculateRashiCompatibility_of_sign (rashi1 : String) (row : RashiRow)
    (rashi2 : Option String) (hrow : compatibilityMatrix.lookup rashi1 = some row) :
    calculateRashiCompatibility (some rashi1) rashi2 = Except.ok
      (if includes row.good rashi2 then 12
       else if includes row.average rashi2 then 8
       else if includes row.poor rashi2 then 4
       else 6) := by
  unfold calculateRashiCompatibility lookupKey toPropertyKey
  simp only [hrow]
  split_ifs <;> rfl

/-- In every row of the table the three sets are pairwise disjoint. -/
theorem compatibilityMatrix_disjoint :
    ∀ entry ∈ compatibilityMatrix,
      (∀ x ∈ entry.2.good, x ∉ entry.2.average ∧ x ∉ entry.2.poor) ∧
      (∀ x ∈ entry.2.average, x ∉ entry.2.poor) := by
  decide

/-- A first rashi that is neither a sign nor an inherited key gives the default 6. -/
theorem calculateRashiCompatibility_unlisted (rashi1 rashi2 : Option String)
    (hsign : compatibilityMatrix.lookup (toPropertyKey rashi1) = none)
    (hkey : toPropertyKey rashi1 ∉ objectPrototypeKeys) :
    calculateRashiCompatibility rashi1 rashi2 = Except.ok 6 := by
  unfold calculateRashiCompatibility lookupKey
  simp [hsign, hkey]
  rfl

/-- C19 (failing input): for the rashi `constructor` `calculateGunaMilanScore` returns
    `NaN`, not a number between 24 and 30. -/
theorem calculateGunaMilanScore_nan_on_inherited_key :
    rashiScores.lookup "constructor" = none ∧
      calculateGunaMilanScore (some "constructor") (some "Rohini") = none := by
  constructor <;> rfl

/-- Outside the inherited keys `calculateGunaMilanScore` returns 18 plus the per-sign
    bonus (6 for an unlisted sign) plus 4 for a favourable nakshatra, a value between 24
    and 30 that the clamp to 36 leaves unchanged. -/
theorem calculateGunaMilanScore_of_own_or_missing (rashi nakshatra : Option String)
    (hkey : toPropertyKey rashi ∉ objectPrototypeKeys) :
    ∃ score, calculateGunaMilanScore rashi nakshatra = some score ∧
      score = 18 + (rashiScores.lookup (toPropertyKey rashi)).getD 6
        + (if includes favorableNakshatras nakshatra then 4 else 0) ∧
      24 ≤ score ∧ score ≤ 30 := by
  have hvalues : ∀ entry ∈ rashiScores, 6 ≤ entry.2 ∧ entry.2 ≤ 8 := by decide
  unfold calculateGunaMilanScore lookupKey
  cases hlookup : rashiScores.lookup (toPropertyKey rashi) with
  | none =>
    simp only [hkey, if_false, Option.getD_none]
    refine ⟨_, rfl, ?_, ?_, ?_⟩ <;> split_ifs <;> decide
  | some v =>
    have hmem : (toPropertyKey rashi, v) ∈ rashiScores := by
      have := List.lookup_eq_some_iff.mp hlookup
      obtain ⟨l₁, l₂, heq, _⟩ := this
      rw [heq]
      simp
    have hv := hvalues _ hmem
    simp only [Option.getD_some]
    have hv0 : v ≠ 0 := by omega
    simp only [hv0, if_false]
    refine ⟨_, rfl, ?_, ?_, ?_⟩ <;> split_ifs <;> simp at hv ⊢ <;> omega

end HoroscopeCalculator

namespace MatchAlgorithms

open JS

/-- C17 (failing input): with education `constructor` against `10th` both ranks of the
    claim's table are 0 (neither a listed value above `10th`), so the claim gives 15,
    yet the education block adds 0. -/
theorem educationScore_inherited_key :
    eduLevels.lookup "constructor" = none ∧ eduLevels.lookup "10th" = some 0 ∧
      eduLevel "constructor" = none ∧
      educationScore userEducationConstructor userEducation10th = 0 := by
  decide

/-- Outside the inherited keys the education block scores the difference of the ranks of
    the table, an unlisted value ranking 0. -/
theorem educationScore_of_ranks (user1 user2 : User) (e1 e2 : String)
    (h1 : user1.education = some e1) (h2 : user2.education = some e2)
    (hne1 : e1 ≠ "") (hne2 : e2 ≠ "")
    (hkey1 : e1 ∉ objectPrototypeKeys) (hkey2 : e2 ∉ objectPrototypeKeys) :
    educationScore user1 user2 =
      (if |(eduLevels.lookup e1).getD 0 - (eduLevels.lookup e2).getD 0| = 0 then 15
       else if |(eduLevels.lookup e1).getD 0 - (eduLevels.lookup e2).getD 0| = 1 then 10
       else if |(eduLevels.lookup e1).getD 0 - (eduLevels.lookup e2).getD 0| = 2 then 5
       else 0) := by
  have hlevel : ∀ e : String, e ∉ objectPrototypeKeys →
      eduLevel e = some ((eduLevels.lookup e).getD 0) := by
    intro e he
    unfold eduLevel lookupKey
    cases eduLevels.lookup e with
    | none => simp [he]
    | some v => simp
  unfold educationScore
  have htruthy : (e1 != "" && e2 != "") = true := by simp [hne1, hne2]
  simp only [h1, h2, truthyStr, hlevel e1 hkey1, hlevel e2 hkey2]
  rw [if_pos htruthy]

end MatchAlgorithms

/-! ### Rounding to the nearest double -/

namespace JS

/-- With enough fuel the halving loop computes `Nat.log2`. -/
theorem log2Fuel_eq (fuel n : Nat) (h : n ≤ fuel) : log2Fuel fuel n = Nat.log2 n := by
  induction fuel generalizing n with
  | zero =>
    have hn : n = 0 := by omega
    subst hn
    rw [Nat.log2]
    simp [log2Fuel]
  | succ fuel ih =>
    rw [Nat.log2]
    by_cases h2 : 2 ≤ n
    · simp [log2Fuel, h2, ih (n / 2) (by omega)]
    · simp [log2Fuel, h2]

/-- A positive natural number lies between two consecutive powers of two. -/
theorem log2Fuel_spec (n : Nat) (hn : 0 < n) :
    2 ^ log2Fuel n n ≤ n ∧ n < 2 ^ (log2Fuel n n + 1) := by
  rw [log2Fuel_eq n n (Nat.le_refl n)]
  exact ⟨Nat.log2_self_le (by omega), Nat.lt_log2_self⟩

/-- The exponent found by `binade` brackets a positive rational. -/
theorem binade_spec (x : ℚ) (hx : 0 < x) :
    (2 : ℚ) ^ binade x ≤ x ∧ x < (2 : ℚ) ^ (binade x + 1) := by
  have hnum : 0 < x.num := Rat.num_pos.mpr hx
  have hden : 0 < x.den := x.den_pos
  have hn := log2Fuel_spec x.num.natAbs (by omega)
  have hd := log2Fuel_spec x.den hden
  set a := log2Fuel x.num.natAbs x.num.natAbs with ha
  set b := log2Fuel x.den x.den with hb
  have hxeq : x = (x.num.natAbs : ℚ) / (x.den : ℚ) := by
    have hcast : (x.num.natAbs : ℚ) = (x.num : ℚ) := by
      rw [← Int.cast_natCast, Int.natAbs_of_nonneg (le_of_lt hnum)]
    rw [hcast]
    exact (Rat.num_div_den x).symm
  have hn1 : ((2 : ℚ) ^ a) ≤ (x.num.natAbs : ℚ) := by exact_mod_cast hn.1
  have hn2 : (x.num.natAbs : ℚ) < (2 : ℚ) ^ (a + 1) := by exact_mod_cast hn.2
  have hd1 : ((2 : ℚ) ^ b) ≤ (x.den : ℚ) := by exact_mod_cast hd.1
  have hd2 : (x.den : ℚ) < (2 : ℚ) ^ (b + 1) := by exact_mod_cast hd.2
  have hdpos : (0 : ℚ) < (x.den : ℚ) := by exact_mod_cast hden
  have h2a : (0 : ℚ) < (2 : ℚ) ^ a := by positivity
  have h2b : (0 : ℚ) < (2 : ℚ) ^ b := by positivity
  have hz : ∀ c : ℤ, (2 : ℚ) ^ ((a : ℤ) - (b : ℤ) + c) = (2 : ℚ) ^ a / (2 : ℚ) ^ b * (2 : ℚ) ^ c := by
    intro c
    rw [zpow_add₀ (by norm_num), zpow_sub₀ (by norm_num), zpow_natCast, zpow_natCast]
  -- upper and lower estimates of x
  have hupper : x < (2 : ℚ) ^ ((a : ℤ) - (b : ℤ) + 1) := by
    rw [hz 1, hxeq, zpow_one, div_lt_iff₀ hdpos]
    have : (2 : ℚ) ^ a / (2 : ℚ) ^ b * 2 * (x.den : ℚ) ≥ (2 : ℚ) ^ a * 2 := by
      have : (2 : ℚ) ^ a / (2 : ℚ) ^ b * 2 * (x.den : ℚ)
          = (2 : ℚ) ^ a * 2 * ((x.den : ℚ) / (2 : ℚ) ^ b) := by ring
      rw [this]
      have hq : 1 ≤ (x.den : ℚ) / (2 : ℚ) ^ b := (one_le_div h2b).mpr hd1
      nlinarith
    have hpow : (2 : ℚ) ^ (a + 1) = (2 : ℚ) ^ a * 2 := pow_succ _ _
    linarith
  have hlower : (2 : ℚ) ^ ((a : ℤ) - (b : ℤ) + (-1)) ≤ x := by
    rw [hz (-1), hxeq, le_div_iff₀ hdpos]
    have hpow : (2 : ℚ) ^ (b + 1) = (2 : ℚ) ^ b * 2 := pow_succ _ _
    have : (2 : ℚ) ^ a / (2 : ℚ) ^ b * (2 : ℚ) ^ (-1 : ℤ) * (x.den : ℚ)
        = (2 : ℚ) ^ a * ((x.den : ℚ) / ((2 : ℚ) ^ b * 2)) := by
      rw [zpow_neg_one]
      field_simp
    rw [this]
    have hq : (x.den : ℚ) / ((2 : ℚ) ^ b * 2) ≤ 1 := by
      rw [div_le_one (by positivity)]
      linarith
    nlinarith
  unfold binade
  simp only [← ha, ← hb]
  split
  · rename_i hle
    exact ⟨hle, by simpa using hupper⟩
  · rename_i hlt
    push_neg at hlt
    refine ⟨by simpa [sub_eq_add_neg] using hlower, ?_⟩
    simpa using hlt


/-- An upper bound by a power of two bounds the exponent. -/
theorem binade_lt_of_lt_zpow (x : ℚ) (hx : 0 < x) (e : ℤ) (h : x < (2 : ℚ) ^ e) :
    binade x < e := by
  have hspec := (binade_spec x hx).1
  have hlt : (2 : ℚ) ^ binade x < (2 : ℚ) ^ e := lt_of_le_of_lt hspec h
  exact (zpow_lt_zpow_iff_right₀ (by norm_num)).mp hlt

/-- A lower bound by a power of two bounds the exponent. -/
theorem le_binade_of_zpow_le (x : ℚ) (hx : 0 < x) (e : ℤ) (h : (2 : ℚ) ^ e ≤ x) :
    e ≤ binade x := by
  have hspec := (binade_spec x hx).2
  have hlt : (2 : ℚ) ^ e < (2 : ℚ) ^ (binade x + 1) := lt_of_le_of_lt h hspec
  have := (zpow_lt_zpow_iff_right₀ (by norm_num)).mp hlt
  omega

/-- Rounding to an integer never passes an integer above. -/
theorem roundHalfEven_le_of_le (x : ℚ) (m : ℤ) (h : x ≤ (m : ℚ)) : roundHalfEven x ≤ m := by
  have hfloor : ⌊x⌋ ≤ m := Int.floor_le_iff.mpr (by linarith : x < (m : ℚ) + 1) |> fun h' => h'
  unfold roundHalfEven
  simp only []
  by_cases hlt : ⌊x⌋ < m
  · split_ifs <;> omega
  · have heq : ⌊x⌋ = m := by omega
    have hxm : x = (m : ℚ) := by
      have := Int.floor_le x
      rw [heq] at this
      linarith
    have hfrac : x - (⌊x⌋ : ℚ) < 1 / 2 := by
      rw [heq, hxm]
      norm_num
    rw [if_pos hfrac]
    omega

/-- Rounding to an integer never passes an integer below. -/
theorem le_roundHalfEven_of_le (x : ℚ) (m : ℤ) (h : (m : ℚ) ≤ x) : m ≤ roundHalfEven x := by
  have hfloor : m ≤ ⌊x⌋ := Int.le_floor.mpr h
  unfold roundHalfEven
  simp only []
  split_ifs <;> omega


/-- A quotient by a power of two is bounded when the number is. -/
theorem div_zpow_le (x y : ℚ) (c : ℤ) (h : x ≤ y * (2 : ℚ) ^ c) : x / (2 : ℚ) ^ c ≤ y := by
  have hpos : (0 : ℚ) < (2 : ℚ) ^ c := by positivity
  exact (div_le_iff₀ hpos).mpr h

/-- A quotient by a power of two is bounded below when the number is. -/
theorem le_div_zpow (x y : ℚ) (c : ℤ) (h : y * (2 : ℚ) ^ c ≤ x) : y ≤ x / (2 : ℚ) ^ c := by
  have hpos : (0 : ℚ) < (2 : ℚ) ^ c := by positivity
  exact (le_div_iff₀ hpos).mpr h

/-- Rounding to a double never passes a normal double `m * 2^k` above. -/
theorem roundPos_le_of_le_double (x : ℚ) (m k : ℤ) (hx : 0 < x)
    (hm1 : 2 ^ 52 ≤ m) (hm2 : m < 2 ^ 53) (hk : -1074 ≤ k)
    (hle : x ≤ (m : ℚ) * (2 : ℚ) ^ k) : roundPos x ≤ (m : ℚ) * (2 : ℚ) ^ k := by
  have h52 : (2 : ℚ) ^ (52 : ℤ) = ((2 ^ 52 : ℤ) : ℚ) := by norm_num
  have h53 : (2 : ℚ) ^ (53 : ℤ) = ((2 ^ 53 : ℤ) : ℚ) := by norm_num
  have hm1q : ((2 : ℚ) ^ (52 : ℤ)) ≤ (m : ℚ) := by
    rw [h52]
    exact_mod_cast hm1
  have hm2q : (m : ℚ) < (2 : ℚ) ^ (53 : ℤ) := by
    rw [h53]
    exact_mod_cast hm2
  have hkpos : (0 : ℚ) < (2 : ℚ) ^ k := by positivity
  have hxlt : x < (2 : ℚ) ^ (k + 53) := by
    rw [zpow_add₀ (by norm_num), mul_comm]
    calc x ≤ (m : ℚ) * (2 : ℚ) ^ k := hle
      _ < (2 : ℚ) ^ (53 : ℤ) * (2 : ℚ) ^ k := by nlinarith
  have he : binade x < k + 53 := binade_lt_of_lt_zpow x hx _ hxlt
  have hspec := binade_spec x hx
  unfold roundPos
  simp only []
  set kx : ℤ := Max.max (binade x) (-1022) - 52 with hkx
  have hkxle : kx ≤ k := by
    rw [hkx]
    have : Max.max (binade x) (-1022) ≤ k + 52 := max_le (by omega) (by omega)
    omega
  have hkxpos : (0 : ℚ) < (2 : ℚ) ^ kx := by positivity
  by_cases heq : kx = k
  · rw [heq]
    have hround : roundHalfEven (x / (2 : ℚ) ^ k) ≤ m :=
      roundHalfEven_le_of_le _ m (div_zpow_le x _ k hle)
    have hroundq : (roundHalfEven (x / (2 : ℚ) ^ k) : ℚ) ≤ (m : ℚ) := by exact_mod_cast hround
    nlinarith
  · have hlt : kx + 1 ≤ k := by omega
    have hbin : binade x + 1 ≤ kx + 53 := by
      rw [hkx]
      have := le_max_left (binade x) (-1022)
      omega
    have hx53 : x ≤ ((2 ^ 53 : ℤ) : ℚ) * (2 : ℚ) ^ kx := by
      have h1 : x < (2 : ℚ) ^ (binade x + 1) := hspec.2
      have h2 : (2 : ℚ) ^ (binade x + 1) ≤ (2 : ℚ) ^ (kx + 53) :=
        zpow_le_zpow_right₀ (by norm_num) hbin
      have h3 : (2 : ℚ) ^ (kx + 53) = ((2 ^ 53 : ℤ) : ℚ) * (2 : ℚ) ^ kx := by
        rw [zpow_add₀ (by norm_num), mul_comm]
        norm_num
      linarith
    have hround : roundHalfEven (x / (2 : ℚ) ^ kx) ≤ 2 ^ 53 :=
      roundHalfEven_le_of_le _ _ (div_zpow_le x _ kx hx53)
    have hroundq : (roundHalfEven (x / (2 : ℚ) ^ kx) : ℚ) ≤ (2 : ℚ) ^ (53 : ℤ) := by
      rw [h53]
      exact_mod_cast hround
    have hstep : (roundHalfEven (x / (2 : ℚ) ^ kx) : ℚ) * (2 : ℚ) ^ kx
        ≤ (2 : ℚ) ^ (53 : ℤ) * (2 : ℚ) ^ kx := by nlinarith
    have hpow : (2 : ℚ) ^ (53 : ℤ) * (2 : ℚ) ^ kx ≤ (2 : ℚ) ^ (52 : ℤ) * (2 : ℚ) ^ k := by
      rw [← zpow_add₀ (by norm_num), ← zpow_add₀ (by norm_num)]
      exact zpow_le_zpow_right₀ (by norm_num) (by omega)
    have hfinal : (2 : ℚ) ^ (52 : ℤ) * (2 : ℚ) ^ k ≤ (m : ℚ) * (2 : ℚ) ^ k := by nlinarith
    linarith

/-- Rounding to a double never passes a normal double `m * 2^k` below. -/
theorem le_roundPos_of_double_le (x : ℚ) (m k : ℤ) (hx : 0 < x)
    (hm1 : 2 ^ 52 ≤ m) (hm2 : m < 2 ^ 53) (hk : -1074 ≤ k)
    (hle : (m : ℚ) * (2 : ℚ) ^ k ≤ x) : (m : ℚ) * (2 : ℚ) ^ k ≤ roundPos x := by
  have h52 : (2 : ℚ) ^ (52 : ℤ) = ((2 ^ 52 : ℤ) : ℚ) := by norm_num
  have h53 : (2 : ℚ) ^ (53 : ℤ) = ((2 ^ 53 : ℤ) : ℚ) := by norm_num
  have hm1q : ((2 : ℚ) ^ (52 : ℤ)) ≤ (m : ℚ) := by
    rw [h52]
    exact_mod_cast hm1
  have hm2q : (m : ℚ) < (2 : ℚ) ^ (53 : ℤ) := by
    rw [h53]
    exact_mod_cast hm2
  have hkpos : (0 : ℚ) < (2 : ℚ) ^ k := by positivity
  have hxge : (2 : ℚ) ^ (k + 52) ≤ x := by
    rw [zpow_add₀ (by norm_num), mul_comm]
    calc (2 : ℚ) ^ (52 : ℤ) * (2 : ℚ) ^ k ≤ (m : ℚ) * (2 : ℚ) ^ k := by nlinarith
      _ ≤ x := hle
  have he : k + 52 ≤ binade x := le_binade_of_zpow_le x hx _ hxge
  have hspec := binade_spec x hx
  unfold roundPos
  simp only []
  set kx : ℤ := Max.max (binade x) (-1022) - 52 with hkx
  have hmax : Max.max (binade x) (-1022) = binade x := max_eq_left (by omega)
  have hkxeq : kx = binade x - 52 := by rw [hkx, hmax]
  have hkxpos : (0 : ℚ) < (2 : ℚ) ^ kx := by positivity
  by_cases heq : kx = k
  · rw [heq]
    have hround : m ≤ roundHalfEven (x / (2 : ℚ) ^ k) :=
      le_roundHalfEven_of_le _ m (le_div_zpow x _ k hle)
    have hroundq : (m : ℚ) ≤ (roundHalfEven (x / (2 : ℚ) ^ k) : ℚ) := by exact_mod_cast hround
    nlinarith
  · have hlt : k + 1 ≤ kx := by omega
    have hx52 : ((2 ^ 52 : ℤ) : ℚ) * (2 : ℚ) ^ kx ≤ x := by
      have h1 : (2 : ℚ) ^ binade x ≤ x := hspec.1
      have h3 : (2 : ℚ) ^ binade x = ((2 ^ 52 : ℤ) : ℚ) * (2 : ℚ) ^ kx := by
        have : binade x = kx + 52 := by omega
        rw [this, zpow_add₀ (by norm_num), mul_comm]
        norm_num
      linarith
    have hround : 2 ^ 52 ≤ roundHalfEven (x / (2 : ℚ) ^ kx) :=
      le_roundHalfEven_of_le _ _ (le_div_zpow x _ kx hx52)
    have hroundq : (2 : ℚ) ^ (52 : ℤ) ≤ (roundHalfEven (x / (2 : ℚ) ^ kx) : ℚ) := by
      rw [h52]
      exact_mod_cast hround
    have hstep : (2 : ℚ) ^ (52 : ℤ) * (2 : ℚ) ^ kx
        ≤ (roundHalfEven (x / (2 : ℚ) ^ kx) : ℚ) * (2 : ℚ) ^ kx := by nlinarith
    have hpow : (2 : ℚ) ^ (53 : ℤ) * (2 : ℚ) ^ k ≤ (2 : ℚ) ^ (52 : ℤ) * (2 : ℚ) ^ kx := by
      rw [← zpow_add₀ (by norm_num), ← zpow_add₀ (by norm_num)]
      exact zpow_le_zpow_right₀ (by norm_num) (by omega)
    have hfinal : (m : ℚ) * (2 : ℚ) ^ k ≤ (2 : ℚ) ^ (53 : ℤ) * (2 : ℚ) ^ k := by nlinarith
    linarith

/-- A positive rational is rounded by `roundPos`. -/
theorem toDouble_of_pos (x : ℚ) (hx : 0 < x) : toDouble x = roundPos x := by
  unfold toDouble
  rw [if_neg (ne_of_gt hx), if_pos hx]

/-- Rounding is monotone across a normal double `m · 2^k`: a value at or above it
    rounds to at least it. -/
theorem toDouble_ge_of_ge (t x ε : ℚ) (m k : ℤ) (hx : 0 < x)
    (hm1 : 2 ^ 52 ≤ m) (hm2 : m < 2 ^ 53) (hk : -1074 ≤ k)
    (ht : toDouble t = (m : ℚ) * (2 : ℚ) ^ k) (hup : (m : ℚ) * (2 : ℚ) ^ k ≤ t + ε)
    (h : x = t ∨ t + ε ≤ x) : toDouble t ≤ toDouble x := by
  rcases h with h | h
  · rw [h]
  · rw [ht, toDouble_of_pos x hx]
    exact le_roundPos_of_double_le x m k hx hm1 hm2 hk (le_trans hup h)

/-- A value at or below the double just under `m · 2^k` rounds below `m · 2^k`. -/
theorem toDouble_lt_of_le (t x ε : ℚ) (m k : ℤ) (hx : 0 < x)
    (hm1 : 2 ^ 52 ≤ m - 1) (hm2 : m < 2 ^ 53) (hk : -1074 ≤ k)
    (ht : toDouble t = (m : ℚ) * (2 : ℚ) ^ k)
    (hdn : t - ε ≤ ((m - 1 : ℤ) : ℚ) * (2 : ℚ) ^ k)
    (h : x ≤ t - ε) : toDouble x < toDouble t := by
  rw [ht, toDouble_of_pos x hx]
  have hle := roundPos_le_of_le_double x (m - 1) k hx hm1 (by omega) hk (le_trans h hdn)
  have hpow : (0 : ℚ) < (2 : ℚ) ^ k := zpow_pos (by norm_num) k
  have hstep : ((m - 1 : ℤ) : ℚ) * (2 : ℚ) ^ k < (m : ℚ) * (2 : ℚ) ^ k := by
    push_cast
    nlinarith
  exact lt_of_le_of_lt hle hstep

/-- The literal `0.8` is the double `7205759403792794 · 2^-53`. -/
theorem toDouble_point_eight :
    toDouble (8 / 10) = ((7205759403792794 : ℤ) : ℚ) * (2 : ℚ) ^ (-53 : ℤ) := by decide!

/-- The literal `0.6` is the double `5404319552844595 · 2^-53`. -/
theorem toDouble_point_six :
    toDouble (6 / 10) = ((5404319552844595 : ℤ) : ℚ) * (2 : ℚ) ^ (-53 : ℤ) := by decide!

/-- The literal `0.4` is the double `7205759403792794 · 2^-54`. -/
theorem toDouble_point_four :
    toDouble (4 / 10) = ((7205759403792794 : ℤ) : ℚ) * (2 : ℚ) ^ (-54 : ℤ) := by decide!

/-- A quotient at `4/5`, or above it by `2·10^-16`, is at least the literal `0.8`. -/
theorem point_eight_le (x : ℚ) (hx : 0 < x)
    (h : x = 4 / 5 ∨ 4 / 5 + 1 / (5 * 10 ^ 15) ≤ x) : toDouble (8 / 10) ≤ toDouble x := by
  have h45 : (8 / 10 : ℚ) = 4 / 5 := by norm_num
  exact toDouble_ge_of_ge (8 / 10) x (1 / (5 * 10 ^ 15)) 7205759403792794 (-53) hx
    (by norm_num) (by norm_num) (by norm_num) toDouble_point_eight (by norm_num)
    (by rw [h45]; exact h)

/-- A quotient below `4/5` by `2·10^-16` is below the literal `0.8`. -/
theorem lt_point_eight (x : ℚ) (hx : 0 < x) (h : x ≤ 4 / 5 - 1 / (5 * 10 ^ 15)) :
    toDouble x < toDouble (8 / 10) := by
  have h45 : (8 / 10 : ℚ) = 4 / 5 := by norm_num
  exact toDouble_lt_of_le (8 / 10) x (1 / (5 * 10 ^ 15)) 7205759403792794 (-53) hx
    (by norm_num) (by norm_num) (by norm_num) toDouble_point_eight (by norm_num)
    (by rw [h45]; exact h)

/-- A quotient at `3/5`, or above it by `2·10^-16`, is at least the literal `0.6`. -/
theorem point_six_le (x : ℚ) (hx : 0 < x)
    (h : x = 3 / 5 ∨ 3 / 5 + 1 / (5 * 10 ^ 15) ≤ x) : toDouble (6 / 10) ≤ toDouble x := by
  have h35 : (6 / 10 : ℚ) = 3 / 5 := by norm_num
  exact toDouble_ge_of_ge (6 / 10) x (1 / (5 * 10 ^ 15)) 5404319552844595 (-53) hx
    (by norm_num) (by norm_num) (by norm_num) toDouble_point_six (by norm_num)
    (by rw [h35]; exact h)

/-- A quotient below `3/5` by `2·10^-16` is below the literal `0.6`. -/
theorem lt_point_six (x : ℚ) (hx : 0 < x) (h : x ≤ 3 / 5 - 1 / (5 * 10 ^ 15)) :
    toDouble x < toDouble (6 / 10) := by
  have h35 : (6 / 10 : ℚ) = 3 / 5 := by norm_num
  exact toDouble_lt_of_le (6 / 10) x (1 / (5 * 10 ^ 15)) 5404319552844595 (-53) hx
    (by norm_num) (by norm_num) (by norm_num) toDouble_point_six (by norm_num)
    (by rw [h35]; exact h)

/-- A quotient at `2/5`, or above it by `2·10^-16`, is at least the literal `0.4`. -/
theorem point_four_le (x : ℚ) (hx : 0 < x)
    (h : x = 2 / 5 ∨ 2 / 5 + 1 / (5 * 10 ^ 15) ≤ x) : toDouble (4 / 10) ≤ toDouble x := by
  have h25 : (4 / 10 : ℚ) = 2 / 5 := by norm_num
  exact toDouble_ge_of_ge (4 / 10) x (1 / (5 * 10 ^ 15)) 7205759403792794 (-54) hx
    (by norm_num) (by norm_num) (by norm_num) toDouble_point_four (by norm_num)
    (by rw [h25]; exact h)

/-- A quotient below `2/5` by `2·10^-16` is below the literal `0.4`. -/
theorem lt_point_four (x : ℚ) (hx : 0 < x) (h : x ≤ 2 / 5 - 1 / (5 * 10 ^ 15)) :
    toDouble x < toDouble (4 / 10) := by
  have h25 : (4 / 10 : ℚ) = 2 / 5 := by norm_num
  exact toDouble_lt_of_le (4 / 10) x (1 / (5 * 10 ^ 15)) 7205759403792794 (-54) hx
    (by norm_num) (by norm_num) (by norm_num) toDouble_point_four (by norm_num)
    (by rw [h25]; exact h)

/-- Rounding to an integer moves a value by at most one half. -/
theorem roundHalfEven_near (x : ℚ) : |(roundHalfEven x : ℚ) - x| ≤ 1 / 2 := by
  have h1 : ((⌊x⌋ : ℤ) : ℚ) ≤ x := Int.floor_le x
  have h2 : x < ((⌊x⌋ : ℤ) : ℚ) + 1 := Int.lt_floor_add_one x
  unfold roundHalfEven
  simp only
  rw [abs_le]
  split_ifs with ha hb hc
  · constructor <;> linarith
  · push_cast
    constructor <;> linarith
  · constructor <;> linarith
  · push_cast
    constructor <;> linarith

/-- The result of `roundPos` is a double: a whole number of at most 53 bits times the
    spacing of the doubles around `x`; and it is within half that spacing of `x`. -/
theorem roundPos_nearest (x : ℚ) (hx : 0 < x) :
    (∃ m : ℤ, 0 ≤ m ∧ m ≤ 2 ^ 53 ∧
      roundPos x = (m : ℚ) * (2 : ℚ) ^ (Max.max (binade x) (-1022) - 52)) ∧
    |roundPos x - x| ≤ (2 : ℚ) ^ (Max.max (binade x) (-1022) - 52) / 2 := by
  have hpow : (0 : ℚ) < (2 : ℚ) ^ (Max.max (binade x) (-1022) - 52) := zpow_pos (by norm_num) _
  constructor
  · refine ⟨roundHalfEven (x / (2 : ℚ) ^ (Max.max (binade x) (-1022) - 52)), ?_, ?_, rfl⟩
    · apply le_roundHalfEven_of_le
      push_cast
      exact le_of_lt (div_pos hx hpow)
    · apply roundHalfEven_le_of_le
      have hup := (binade_spec x hx).2
      have hmono : (2 : ℚ) ^ (binade x + 1)
          ≤ (2 : ℚ) ^ ((53 : ℤ) + (Max.max (binade x) (-1022) - 52)) := by
        apply zpow_le_zpow_right₀ (by norm_num)
        have := le_max_left (binade x) (-1022)
        omega
      have hsplit : (2 : ℚ) ^ ((53 : ℤ) + (Max.max (binade x) (-1022) - 52))
          = (2 : ℚ) ^ (53 : ℤ) * (2 : ℚ) ^ (Max.max (binade x) (-1022) - 52) :=
        zpow_add₀ (by norm_num) _ _
      have h53 : (2 : ℚ) ^ (53 : ℤ) = (((2 : ℤ) ^ 53 : ℤ) : ℚ) := by norm_num
      rw [hsplit, h53] at hmono
      exact div_zpow_le x _ _ (le_of_lt (lt_of_lt_of_le hup hmono))
  · have hnear := roundHalfEven_near (x / (2 : ℚ) ^ (Max.max (binade x) (-1022) - 52))
    have hx_eq : x = x / (2 : ℚ) ^ (Max.max (binade x) (-1022) - 52)
        * (2 : ℚ) ^ (Max.max (binade x) (-1022) - 52) := by
      field_simp
    have hdiff : roundPos x - x
        = ((roundHalfEven (x / (2 : ℚ) ^ (Max.max (binade x) (-1022) - 52)) : ℚ)
            - x / (2 : ℚ) ^ (Max.max (binade x) (-1022) - 52))
          * (2 : ℚ) ^ (Max.max (binade x) (-1022) - 52) := by
      unfold roundPos
      simp only
      rw [sub_mul, ← hx_eq]
    rw [hdiff, abs_mul, abs_of_pos hpow]
    calc _ ≤ 1 / 2 * (2 : ℚ) ^ (Max.max (binade x) (-1022) - 52) :=
          mul_le_mul_of_nonneg_right hnear (le_of_lt hpow)
      _ = _ := by ring

end JS

namespace MatchAlgorithms

open JS

/-- With both incomes present and nonzero the income block is the cascade of the three
    comparisons of the quotient with `0.8`, `0.6` and `0.4`. -/
theorem incomeScore_of_present (user1 user2 : User) (a b : ℚ)
    (ha : user1.annualIncome = some a) (hb : user2.annualIncome = some b)
    (ha0 : a ≠ 0) (hb0 : b ≠ 0) :
    incomeScore user1 user2 =
      (if incomeRatio a b ≥ toDouble (8 / 10) then 10
       else if incomeRatio a b ≥ toDouble (6 / 10) then 7
       else if incomeRatio a b ≥ toDouble (4 / 10) then 5
       else 2) := by
  have htruthy : (truthyNumber (some a) && truthyNumber (some b)) = true := by
    simp [truthyNumber, ha0, hb0]
  unfold incomeScore
  simp only [ha, hb]
  rw [if_pos htruthy]

/-- A quotient `p/q` of whole numbers with `q < 10^15` that is not `n/5` is at least
    `2·10^-16` away from `n/5`. -/
theorem whole_ratio_gap (n p q : Nat) (hq : 0 < q) (hqb : q < 10 ^ 15) :
    ((n : ℚ) / 5 ≤ (p : ℚ) / q →
      (p : ℚ) / q = n / 5 ∨ (n : ℚ) / 5 + 1 / (5 * 10 ^ 15) ≤ (p : ℚ) / q) ∧
    ((p : ℚ) / q < n / 5 → (p : ℚ) / q ≤ n / 5 - 1 / (5 * 10 ^ 15)) := by
  have hq0 : (0 : ℚ) < q := by exact_mod_cast hq
  have hqb0 : (q : ℚ) ≤ 10 ^ 15 := by exact_mod_cast le_of_lt hqb
  constructor
  · intro h
    rw [div_le_div_iff₀ (by norm_num) hq0] at h
    have hn : n * q ≤ p * 5 := by exact_mod_cast h
    rcases Nat.eq_or_lt_of_le hn with he | hl
    · left
      rw [div_eq_div_iff (ne_of_gt hq0) (by norm_num)]
      exact_mod_cast he.symm
    · right
      have hl0 : (n : ℚ) * q + 1 ≤ p * 5 := by exact_mod_cast hl
      rw [le_div_iff₀ hq0]
      linarith
  · intro h
    rw [div_lt_div_iff₀ hq0 (by norm_num)] at h
    have hn : p * 5 < n * q := by exact_mod_cast h
    have hl0 : (p : ℚ) * 5 + 1 ≤ n * q := by exact_mod_cast hn
    rw [div_le_iff₀ hq0]
    linarith

/-- The exact income quotient of two positive incomes is positive. -/
theorem income_quotient_pos (a b : ℚ) (ha : 0 < a) (hb : 0 < b) :
    0 < Min.min a b / Max.max a b :=
  div_pos (lt_min ha hb) (lt_of_lt_of_le ha (le_max_left a b))

/-- The income block for two positive incomes whose exact quotient `r` is `4/5`, `3/5`,
    `2/5` or at least `2·10^-16` away from each of them: the contribution is the one the
    exact quotient gives. -/
theorem incomeScore_of_separated (user1 user2 : User) (a b : ℚ)
    (ha : user1.annualIncome = some a) (hb : user2.annualIncome = some b)
    (ha0 : 0 < a) (hb0 : 0 < b)
    (h8 : 4 / 5 ≤ Min.min a b / Max.max a b →
      Min.min a b / Max.max a b = 4 / 5 ∨ 4 / 5 + 1 / (5 * 10 ^ 15) ≤ Min.min a b / Max.max a b)
    (h8n : Min.min a b / Max.max a b < 4 / 5 →
      Min.min a b / Max.max a b ≤ 4 / 5 - 1 / (5 * 10 ^ 15))
    (h6 : 3 / 5 ≤ Min.min a b / Max.max a b →
      Min.min a b / Max.max a b = 3 / 5 ∨ 3 / 5 + 1 / (5 * 10 ^ 15) ≤ Min.min a b / Max.max a b)
    (h6n : Min.min a b / Max.max a b < 3 / 5 →
      Min.min a b / Max.max a b ≤ 3 / 5 - 1 / (5 * 10 ^ 15))
    (h4 : 2 / 5 ≤ Min.min a b / Max.max a b →
      Min.min a b / Max.max a b = 2 / 5 ∨ 2 / 5 + 1 / (5 * 10 ^ 15) ≤ Min.min a b / Max.max a b)
    (h4n : Min.min a b / Max.max a b < 2 / 5 →
      Min.min a b / Max.max a b ≤ 2 / 5 - 1 / (5 * 10 ^ 15)) :
    incomeScore user1 user2 =
      (if Min.min a b / Max.max a b ≥ 4 / 5 then 10
       else if Min.min a b / Max.max a b ≥ 3 / 5 then 7
       else if Min.min a b / Max.max a b ≥ 2 / 5 then 5
       else 2) := by
  have hpos := income_quotient_pos a b ha0 hb0
  rw [incomeScore_of_present user1 user2 a b ha hb (ne_of_gt ha0) (ne_of_gt hb0)]
  unfold incomeRatio
  have e8 : toDouble (Min.min a b / Max.max a b) ≥ toDouble (8 / 10) ↔
      Min.min a b / Max.max a b ≥ 4 / 5 := by
    constructor
    · intro h
      by_contra hn
      exact absurd h (not_le.mpr (lt_point_eight _ hpos (h8n (not_le.mp hn))))
    · intro h
      exact point_eight_le _ hpos (h8 h)
  have e6 : toDouble (Min.min a b / Max.max a b) ≥ toDouble (6 / 10) ↔
      Min.min a b / Max.max a b ≥ 3 / 5 := by
    constructor
    · intro h
      by_contra hn
      exact absurd h (not_le.mpr (lt_point_six _ hpos (h6n (not_le.mp hn))))
    · intro h
      exact point_six_le _ hpos (h6 h)
  have e4 : toDouble (Min.min a b / Max.max a b) ≥ toDouble (4 / 10) ↔
      Min.min a b / Max.max a b ≥ 2 / 5 := by
    constructor
    · intro h
      by_contra hn
      exact absurd h (not_le.mpr (lt_point_four _ hpos (h4n (not_le.mp hn))))
    · intro h
      exact point_four_le _ hpos (h4 h)
  simp only [e8, e6, e4]

/-- C14 (counterexample): the incomes 5400000000000001 and 9000000000000002 are present
    and positive and their ratio is at least 2/5 and below 3/5, yet the income
    contribution is 7, not 5: the quotient of the two doubles is the double the literal
    `0.6` denotes. Likewise incomes written 1.2 and 1.5 have the ratio 4/5 as written,
    yet the contribution is 7, not 10. -/
theorem incomeScore_rounded_quotient :
    (userIncomeSmaller.annualIncome = some 5400000000000001 ∧
      userIncomeLarger.annualIncome = some 9000000000000002 ∧
      (0 : ℚ) < 5400000000000001 ∧ (0 : ℚ) < 9000000000000002 ∧
      Min.min (5400000000000001 : ℚ) 9000000000000002
        / Max.max (5400000000000001 : ℚ) 9000000000000002 ≥ 2 / 5 ∧
      Min.min (5400000000000001 : ℚ) 9000000000000002
        / Max.max (5400000000000001 : ℚ) 9000000000000002 < 3 / 5 ∧
      incomeScore userIncomeSmaller userIncomeLarger = 7) ∧
    (userIncomeDecimalA.annualIncome = some (toDouble (12 / 10)) ∧
      userIncomeDecimalB.annualIncome = some (toDouble (15 / 10)) ∧
      Min.min (12 / 10 : ℚ) (15 / 10) / Max.max (12 / 10 : ℚ) (15 / 10) ≥ 4 / 5 ∧
      incomeScore userIncomeDecimalA userIncomeDecimalB = 7) := by
  decide!

/-- C14 (amended): when both annual incomes `a` and `b` are present, positive whole
    numbers below `10^15`, the income contribution is 10 if `min(a,b)/max(a,b) ≥ 4/5`,
    7 if the ratio is at least 3/5 but below 4/5, 5 if it is at least 2/5 but below 3/5,
    and 2 otherwise. For any two present positive incomes the same four cases hold as
    long as the ratio stays `2·10^-16` away from 4/5, 3/5 and 2/5. The contribution is 0
    when either income is absent. -/
theorem incomeScore_thresholds (user1 user2 : User) :
    (∀ a b : Nat, user1.annualIncome = some (a : ℚ) → user2.annualIncome = some (b : ℚ) →
      0 < a → a < 10 ^ 15 → 0 < b → b < 10 ^ 15 →
      (Min.min (a : ℚ) (b : ℚ) / Max.max (a : ℚ) (b : ℚ) ≥ 4 / 5 →
        incomeScore user1 user2 = 10) ∧
      (Min.min (a : ℚ) (b : ℚ) / Max.max (a : ℚ) (b : ℚ) ≥ 3 / 5 →
        Min.min (a : ℚ) (b : ℚ) / Max.max (a : ℚ) (b : ℚ) < 4 / 5 →
        incomeScore user1 user2 = 7) ∧
      (Min.min (a : ℚ) (b : ℚ) / Max.max (a : ℚ) (b : ℚ) ≥ 2 / 5 →
        Min.min (a : ℚ) (b : ℚ) / Max.max (a : ℚ) (b : ℚ) < 3 / 5 →
        incomeScore user1 user2 = 5) ∧
      (Min.min (a : ℚ) (b : ℚ) / Max.max (a : ℚ) (b : ℚ) < 2 / 5 →
        incomeScore user1 user2 = 2)) ∧
    (∀ a b : ℚ, user1.annualIncome = some a → user2.annualIncome = some b →
      0 < a → 0 < b →
      (Min.min a b / Max.max a b ≥ 4 / 5 + 1 / (5 * 10 ^ 15) →
        incomeScore user1 user2 = 10) ∧
      (Min.min a b / Max.max a b ≥ 3 / 5 + 1 / (5 * 10 ^ 15) →
        Min.min a b / Max.max a b ≤ 4 / 5 - 1 / (5 * 10 ^ 15) →
        incomeScore user1 user2 = 7) ∧
      (Min.min a b / Max.max a b ≥ 2 / 5 + 1 / (5 * 10 ^ 15) →
        Min.min a b / Max.max a b ≤ 3 / 5 - 1 / (5 * 10 ^ 15) →
        incomeScore user1 user2 = 5) ∧
      (Min.min a b / Max.max a b ≤ 2 / 5 - 1 / (5 * 10 ^ 15) →
        incomeScore user1 user2 = 2)) ∧
    (user1.annualIncome = none ∨ user2.annualIncome = none → incomeScore user1 user2 = 0) := by
  refine ⟨?_, ?_, ?_⟩
  · intro a b ha hb hapos habound hbpos hbbound
    have hmin : Min.min (a : ℚ) (b : ℚ) = ((Min.min a b : Nat) : ℚ) := (Nat.cast_min a b).symm
    have hmax : Max.max (a : ℚ) (b : ℚ) = ((Max.max a b : Nat) : ℚ) := (Nat.cast_max a b).symm
    have hq : 0 < Max.max a b := lt_of_lt_of_le hapos (le_max_left a b)
    have hqb : Max.max a b < 10 ^ 15 := max_lt habound hbbound
    have g8 := whole_ratio_gap 4 (Min.min a b) (Max.max a b) hq hqb
    have g6 := whole_ratio_gap 3 (Min.min a b) (Max.max a b) hq hqb
    have g4 := whole_ratio_gap 2 (Min.min a b) (Max.max a b) hq hqb
    rw [← hmin, ← hmax] at g8 g6 g4
    have hscore := incomeScore_of_separated user1 user2 (a : ℚ) (b : ℚ) ha hb
      (by exact_mod_cast hapos) (by exact_mod_cast hbpos)
      (by simpa using g8.1) (by simpa using g8.2) (by simpa using g6.1) (by simpa using g6.2)
      (by simpa using g4.1) (by simpa using g4.2)
    rw [hscore]
    refine ⟨?_, ?_, ?_, ?_⟩
    · intro h
      rw [if_pos h]
    · intro h h0
      rw [if_neg (not_le.mpr h0), if_pos h]
    · intro h h0
      rw [if_neg (by linarith), if_neg (not_le.mpr h0), if_pos h]
    · intro h
      rw [if_neg (by linarith), if_neg (by linarith), if_neg (not_le.mpr h)]
  · intro a b ha hb hapos hbpos
    have hpos := income_quotient_pos a b hapos hbpos
    rw [incomeScore_of_present user1 user2 a b ha hb (ne_of_gt hapos) (ne_of_gt hbpos)]
    unfold incomeRatio
    refine ⟨?_, ?_, ?_, ?_⟩
    · intro h
      rw [if_pos (point_eight_le _ hpos (Or.inr h))]
    · intro h h0
      rw [if_neg (not_le.mpr (lt_point_eight _ hpos h0)),
        if_pos (point_six_le _ hpos (Or.inr h))]
    · intro h h0
      rw [if_neg (not_le.mpr (lt_point_eight _ hpos (by linarith))),
        if_neg (not_le.mpr (lt_point_six _ hpos h0)),
        if_pos (point_four_le _ hpos (Or.inr h))]
    · intro h
      rw [if_neg (not_le.mpr (lt_point_eight _ hpos (by linarith))),
        if_neg (not_le.mpr (lt_point_six _ hpos (by linarith))),
        if_neg (not_le.mpr (lt_point_four _ hpos h))]
  · intro h
    unfold incomeScore
    rcases h with h | h
    · simp [h, truthyNumber]
    · simp [h, truthyNumber]

/-- Witness for C14: incomes 1,200,000 and 1,500,000 (ratio 4/5), incomes 0.5 and 1.5
    (ratio 1/3), and an absent income. -/
theorem incomeScore_thresholds_witness :
    (userA.annualIncome = some ((1200000 : Nat) : ℚ) ∧
      userB.annualIncome = some ((1500000 : Nat) : ℚ) ∧
      0 < 1200000 ∧ 1200000 < 10 ^ 15 ∧ 0 < 1500000 ∧ 1500000 < 10 ^ 15 ∧
      Min.min ((1200000 : Nat) : ℚ) ((1500000 : Nat) : ℚ)
        / Max.max ((1200000 : Nat) : ℚ) ((1500000 : Nat) : ℚ) ≥ 4 / 5 ∧
      incomeScore userA userB = 10) ∧
    (userIncomeHalf.annualIncome = some (1 / 2) ∧
      userIncomeThreeHalves.annualIncome = some (3 / 2) ∧
      (0 : ℚ) < 1 / 2 ∧ (0 : ℚ) < 3 / 2 ∧
      Min.min (1 / 2 : ℚ) (3 / 2) / Max.max (1 / 2 : ℚ) (3 / 2) ≤ 2 / 5 - 1 / (5 * 10 ^ 15) ∧
      incomeScore userIncomeHalf userIncomeThreeHalves = 2) ∧
    ((User.empty.annualIncome = none ∨ userB.annualIncome = none) ∧
      incomeScore User.empty userB = 0) :=
  have hratio : Min.min ((1200000 : Nat) : ℚ) ((1500000 : Nat) : ℚ)
      / Max.max ((1200000 : Nat) : ℚ) ((1500000 : Nat) : ℚ) ≥ 4 / 5 := by decide!
  have hthird : Min.min (1 / 2 : ℚ) (3 / 2) / Max.max (1 / 2 : ℚ) (3 / 2)
      ≤ 2 / 5 - 1 / (5 * 10 ^ 15) := by decide!
  ⟨⟨by decide!, by decide!, by decide, by decide, by decide, by decide, hratio,
      ((incomeScore_thresholds userA userB).1 1200000 1500000 (by decide!) (by decide!)
        (by decide) (by decide) (by decide) (by decide)).1 hratio⟩,
    ⟨rfl, rfl, by decide!, by decide!, hthird,
      ((incomeScore_thresholds userIncomeHalf userIncomeThreeHalves).2.1 (1 / 2) (3 / 2)
        rfl rfl (by decide!) (by decide!)).2.2.2 hthird⟩,
    ⟨Or.inl rfl, (incomeScore_thresholds User.empty userB).2.2 (Or.inl rfl)⟩⟩

/-- C15 (counterexample): a user without a city and a user in Bangalore do not have the
    same city and do have the same state, yet the location contribution is 0, not 7. -/
theorem locationScore_same_state_without_city :
    userWithoutCity.currentCity ≠ userInBangalore.currentCity ∧
      userWithoutCity.currentState = userInBangalore.currentState ∧
      locationScore userWithoutCity userInBangalore = 0 ∧
      locationScore userWithoutCity userInBangalore ≠ 7 := by
  decide

/-- C15 (amended): when either user has no current city the location contribution is 0;
    when both have one it is 10 if the cities are equal; otherwise 7 if both have the
    same state; otherwise, the states being different, 5 if both have the same country;
    otherwise, the countries being different too, 3 if at least one user is willing to
    relocate and 0 if neither is. -/
theorem locationScore_cases (user1 user2 : User) :
    ((truthyStr user1.currentCity && truthyStr user2.currentCity) = false →
      locationScore user1 user2 = 0) ∧
    ((truthyStr user1.currentCity && truthyStr user2.currentCity) = true →
      (user1.currentCity = user2.currentCity → locationScore user1 user2 = 10) ∧
      (user1.currentCity ≠ user2.currentCity →
        (user1.currentState ≠ none → user1.currentState = user2.currentState →
          locationScore user1 user2 = 7) ∧
        (user1.currentState ≠ user2.currentState →
          (user1.currentCountry ≠ none → user1.currentCountry = user2.currentCountry →
            locationScore user1 user2 = 5) ∧
          (user1.currentCountry ≠ user2.currentCountry →
            ((user1.willingToRelocate || user2.willingToRelocate) = true →
              locationScore user1 user2 = 3) ∧
            ((user1.willingToRelocate || user2.willingToRelocate) = false →
              locationScore user1 user2 = 0))))) := by
  unfold locationScore
  constructor
  · intro h
    simp [h]
  · intro h
    rw [if_pos h]
    refine ⟨fun hc => by rw [if_pos hc], fun hc => ?_⟩
    rw [if_neg hc]
    refine ⟨fun _ hs => by rw [if_pos hs], fun hs => ?_⟩
    rw [if_neg hs]
    refine ⟨fun _ hn => by rw [if_pos hn], fun hn => ?_⟩
    rw [if_neg hn]
    exact ⟨fun hr => by rw [if_pos hr], fun hr => by simp [hr]⟩

/-- Witness for C15 (amended): one pair of users for each of the six outcomes. -/
theorem locationScore_cases_witness :
    locationScore userWithoutCity userInBangalore = 0 ∧
      locationScore userInBangalore userInBangalore = 10 ∧
      locationScore userInBangalore userInMysore = 7 ∧
      locationScore userInChennai userInDelhi = 5 ∧
      locationScore userInChennai userInDubai = 3 ∧
      locationScore userInChennai userInLondon = 0 :=
  ⟨(locationScore_cases userWithoutCity userInBangalore).1 (by decide),
    ((locationScore_cases userInBangalore userInBangalore).2 (by decide)).1 rfl,
    (((locationScore_cases userInBangalore userInMysore).2 (by decide)).2 (by decide)).1
      (by decide) (by decide),
    ((((locationScore_cases userInChennai userInDelhi).2 (by decide)).2 (by decide)).2
      (by decide)).1 (by decide) (by decide),
    (((((locationScore_cases userInChennai userInDubai).2 (by decide)).2 (by decide)).2
      (by decide)).2 (by decide)).1 (by decide),
    (((((locationScore_cases userInChennai userInLondon).2 (by decide)).2 (by decide)).2
      (by decide)).2 (by decide)).2 (by decide)⟩

/-- C16: when both professions are present, the profession contribution is 10 if the two
    professions are equal or both belong to one related-professions group, and 5
    otherwise; it is never 0. -/
theorem professionScore_cases (user1 user2 : User)
    (h1 : truthyStr user1.profession = true) (h2 : truthyStr user2.profession = true) :
    ((user1.profession = user2.profession ∨
        ∃ group ∈ similarProfessions,
          includes group user1.profession = true ∧ includes group user2.profession = true) →
      professionScore user1 user2 = 10) ∧
    (¬ (user1.profession = user2.profession ∨
        ∃ group ∈ similarProfessions,
          includes group user1.profession = true ∧ includes group user2.profession = true) →
      professionScore user1 user2 = 5) ∧
    professionScore user1 user2 ≠ 0 := by
  have hsimilar : isSimilar user1.profession user2.profession = true ↔
      ∃ group ∈ similarProfessions,
        includes group user1.profession = true ∧ includes group user2.profession = true := by
    unfold isSimilar
    rw [List.any_eq_true]
    simp only [Bool.and_eq_true]
  have hscore : professionScore user1 user2 =
      (if isSimilar user1.profession user2.profession = true then 10
       else if user1.profession = user2.profession then 10 else 5) := by
    unfold professionScore
    rw [if_pos (by simp [h1, h2])]
  rw [hscore]
  refine ⟨?_, ?_, ?_⟩
  · rintro (heq | hgroup)
    · split_ifs <;> rfl
    · rw [if_pos (hsimilar.mpr hgroup)]
  · intro hnot
    rw [if_neg (fun h => hnot (Or.inr (hsimilar.mp h))), if_neg (fun h => hnot (Or.inl h))]
  · split_ifs <;> decide

/-- Witness for C16: Engineer against Doctor scores 5, Engineer against Engineer 10. -/
theorem professionScore_cases_witness :
    truthyStr userA.profession = true ∧ truthyStr userB.profession = true ∧
      professionScore userA userB = 5 ∧ professionScore userA userA = 10 ∧
      professionScore userA userB ≠ 0 :=
  ⟨by decide, by decide,
    (professionScore_cases userA userB (by decide) (by decide)).2.1 (by decide),
    (professionScore_cases userA userA (by decide) (by decide)).1 (Or.inl rfl),
    (professionScore_cases userA userB (by decide) (by decide)).2.2⟩

/-- C18: the family contribution is exactly 5 times [the sub-community tags match] plus
    5 times [the gotra tags differ]; so two users with the same sub-community get 10
    when their gotras differ and 5 when their gotras are the same. -/
theorem familyScore_formula (user1 user2 : User) :
    familyScore user1 user2 =
        5 * (if user1.subCommunity = user2.subCommunity then 1 else 0)
          + 5 * (if user1.gotra ≠ user2.gotra then 1 else 0) ∧
    (user1.subCommunity = user2.subCommunity →
      (user1.gotra ≠ user2.gotra → familyScore user1 user2 = 10) ∧
      (user1.gotra = user2.gotra → familyScore user1 user2 = 5)) := by
  unfold familyScore
  refine ⟨?_, fun hsub => ⟨fun hg => ?_, fun hg => ?_⟩⟩
  · split_ifs <;> rfl
  · rw [if_pos hsub, if_pos hg]
  · rw [if_pos hsub, if_neg (not_not.mpr hg)]

/-- Witness for C18: users A and B (same sub-community, different gotras) get 10, and
    user A against a copy of A (same gotra) gets 5. -/
theorem familyScore_formula_witness :
    userA.subCommunity = userB.subCommunity ∧ userA.gotra ≠ userB.gotra ∧
      familyScore userA userB = 10 ∧ familyScore userA userA = 5 :=
  ⟨by decide, by decide,
    ((familyScore_formula userA userB).2 (by decide)).1 (by decide),
    ((familyScore_formula userA userA).2 rfl).2 rfl⟩

end MatchAlgorithms

namespace HoroscopeController

open JS

/-- C21 (failing input): for an Aries and a Cancer horoscope that agree in everything
    else, the five sub-scores of `calculateHoroscopeMatch` are 4, 4, 8, 2 and 0, whose
    rounded percentages of 12, 8, 8, 4 and 4 are 33, 50, 100, 50 and 0, while
    `getCompatibilityFactors` reports the scores 85, 75, 90, 70 and 80. -/
theorem getCompatibilityFactors_fixed_scores :
    rashiPoints horoscopeAries horoscopeCancer = Except.ok 4 ∧
      nakshatraPoints horoscopeAries horoscopeCancer = 4 ∧
      manglikPoints horoscopeAries horoscopeCancer = 8 ∧
      padaPoints horoscopeAries horoscopeCancer = 2 ∧
      planetPoints horoscopeAries horoscopeCancer = 0 ∧
      [mathRound (100 * 4 / 12), mathRound (100 * 4 / 8), mathRound (100 * 8 / 8),
        mathRound (100 * 2 / 4), mathRound (100 * 0 / 4)] = [33, 50, 100, 50, 0] ∧
      (getCompatibilityFactors horoscopeAries horoscopeCancer).map
          (fun f => (f.factor, f.score)) =
        [("Rashi Compatibility", 85), ("Nakshatra Match", 75), ("Manglik Status", 90),
         ("Nakshatra Pada", 70), ("Overall Harmony", 80)] := by
  refine ⟨rfl, by decide, by decide, by decide, by decide, by decide!, by decide⟩

/-- Exhaustive comparison of the two zodiac derivations over months 1..12, days 1..31. -/
theorem detailsRashi_table :
    ∀ month ∈ List.range 13, ∀ day ∈ List.range 32, 1 ≤ month → 1 ≤ day →
      detailsRashi month day = HoroscopeCalculator.calculateRashi month day ∧
        detailsRashi month day ≠ "Unknown" := by
  decide

/-- C27: for every month in 1..12 and day in 1..31 the rashi assigned by the zodiac loop
    of the controller's `calculateHoroscopeDetails` equals `calculateRashi(month, day)`,
    and the controller never leaves the rashi as Unknown. -/
theorem detailsRashi_eq_calculateRashi (month day : Nat)
    (hmonth : 1 ≤ month ∧ month ≤ 12) (hday : 1 ≤ day ∧ day ≤ 31) :
    detailsRashi month day = HoroscopeCalculator.calculateRashi month day ∧
      detailsRashi month day ≠ "Unknown" :=
  detailsRashi_table month (List.mem_range.mpr (by omega)) day (List.mem_range.mpr (by omega))
    hmonth.1 hday.1

/-- Witness for C27 at month 12, day 25. -/
theorem detailsRashi_eq_calculateRashi_witness :
    (1 ≤ 12 ∧ 12 ≤ 12) ∧ (1 ≤ 25 ∧ 25 ≤ 31) ∧
      detailsRashi 12 25 = HoroscopeCalculator.calculateRashi 12 25 ∧
      detailsRashi 12 25 ≠ "Unknown" :=
  ⟨by decide, by decide, detailsRashi_eq_calculateRashi 12 25 (by decide) (by decide)⟩

end HoroscopeController

namespace HoroscopeCalculator

open JS

/-- C23 (failing input): Ashwini is a Deva nakshatra and Bharani a Manushya nakshatra;
    the comment table gives Deva with Manushya 6, the code returns 3, in either order. -/
theorem calculateGanaCompatibility_deva_manushya :
    getGana (some "Ashwini") = Gana.deva ∧ getGana (some "Bharani") = Gana.manushya ∧
      calculateGanaCompatibility (some "Ashwini") (some "Bharani") = 3 ∧
      calculateGanaCompatibility (some "Bharani") (some "Ashwini") = 3 := by
  decide

/-- C29: `calculateMatchScore` of the calculator is not symmetric: two horoscopes that
    are identical except for the rashi, Aries against Aquarius, score 30 in one order
    and 32 in the other. -/
theorem calculateMatchScore_not_symmetric :
    horoscopeAquarius = { horoscopeAries with rashi := some "Aquarius" } ∧
      calculateMatchScore horoscopeAries horoscopeAquarius = Except.ok 30 ∧
      calculateMatchScore horoscopeAquarius horoscopeAries = Except.ok 32 ∧
      ∃ h1 h2 : Horoscope, calculateMatchScore h1 h2 ≠ calculateMatchScore h2 h1 := by
  have h30 : calculateMatchScore horoscopeAries horoscopeAquarius = Except.ok 30 := rfl
  have h32 : calculateMatchScore horoscopeAquarius horoscopeAries = Except.ok 32 := rfl
  refine ⟨rfl, h30, h32, horoscopeAries, horoscopeAquarius, ?_⟩
  rw [h30, h32]
  intro h
  injection h with h
  exact absurd h (by decide)

end HoroscopeCalculator

namespace Validators

open JS

/-- C25 (failing input): a person born on 31 December 2008 is accepted on 5 November
    2026, although the 18th birthday, 31 December 2026, has not come yet. -/
theorem dateOfBirthCustom_accepts_before_birthday :
    dateOfBirthCustom fifthNovember2026 lastDayOf2008 = Except.ok true ∧
      lastDayOf2008.getFullYear + 18 = fifthNovember2026.getFullYear ∧
      fifthNovember2026.getMonth < lastDayOf2008.getMonth := by
  refine ⟨rfl, by decide, by decide⟩

end Validators

/-- Check of the tiers of the two classifiers over the scores 0..36. -/
theorem tier_table :
    ∀ s ∈ List.range 37, ∃ a ∈ [0, 1, 2, 3], ∃ b ∈ [0, 1, 2, 3],
      levelRank (HoroscopeController.getMatchAssessment (s : ℚ)).level = some a ∧
      assessmentRank (HoroscopeCalculator.overallAssessment
        (JS.mathRound (100 * (s : ℚ) / 36))).1 = some b ∧
      a ≤ b := by
  decide!

/-- C30: for every integer score `s` in 0..36, the tier the percentage classifier of
    `getCompatibilityAnalysis` assigns to `round(100 * s / 36)` is never lower than the
    tier `getMatchAssessment` assigns to `s`, in the order Poor, Average, Good,
    Excellent. -/
theorem percentage_tier_not_lower (s : Nat) (hs : s ≤ 36) :
    ∃ a b : Nat,
      levelRank (HoroscopeController.getMatchAssessment (s : ℚ)).level = some a ∧
      assessmentRank (HoroscopeCalculator.overallAssessment
        (JS.mathRound (100 * (s : ℚ) / 36))).1 = some b ∧
      a ≤ b := by
  obtain ⟨a, _, b, _, h⟩ := tier_table s (List.mem_range.mpr (by omega))
  exact ⟨a, b, h⟩

/-- Witness for C30 at the score 27, which is Good on the 36 scale and Excellent as a
    percentage. -/
theorem percentage_tier_not_lower_witness :
    27 ≤ 36 ∧ ∃ a b : Nat,
      levelRank (HoroscopeController.getMatchAssessment ((27 : Nat) : ℚ)).level = some a ∧
      assessmentRank (HoroscopeCalculator.overallAssessment
        (JS.mathRound (100 * ((27 : Nat) : ℚ) / 36))).1 = some b ∧
      a ≤ b :=
  ⟨by decide, percentage_tier_not_lower 27 (by decide)⟩

namespace JS

/-- A year has at least 365 and at most 366 days. -/
theorem dayFromYear_succ (y : Int) :
    dayFromYear y + 365 ≤ dayFromYear (y + 1) ∧ dayFromYear (y + 1) ≤ dayFromYear y + 366 := by
  unfold dayFromYear
  constructor <;> omega

/-- The upward search stops at the year that contains the day. -/
theorem yearUp_spec (day : Int) (fuel : Nat) (y : Int)
    (hstart : dayFromYear y ≤ day) (hfuel : day < dayFromYear y + 365 * (fuel : Int)) :
    dayFromYear (yearUp day fuel y) ≤ day ∧ day < dayFromYear (yearUp day fuel y + 1) := by
  induction fuel generalizing y with
  | zero =>
    simp at hfuel
    omega
  | succ n ih =>
    unfold yearUp
    split
    · rename_i hnext
      apply ih (y + 1) hnext
      have := (dayFromYear_succ y).1
      push_cast at hfuel
      omega
    · rename_i hstop
      exact ⟨hstart, by omega⟩

/-- The downward search stops at the year that contains the day. -/
theorem yearDown_spec (day : Int) (fuel : Nat) (y : Int)
    (hstart : day < dayFromYear (y + 1)) (hfuel : dayFromYear y - 365 * (fuel : Int) ≤ day) :
    dayFromYear (yearDown day fuel y) ≤ day ∧
      day < dayFromYear (yearDown day fuel y + 1) := by
  induction fuel generalizing y with
  | zero =>
    simp at hfuel
    exact ⟨hfuel, hstart⟩
  | succ n ih =>
    unfold yearDown
    split
    · rename_i hprev
      apply ih (y - 1)
      · simpa using hprev
      · have := (dayFromYear_succ (y - 1)).1
        simp only [sub_add_cancel] at this
        push_cast at hfuel
        omega
    · rename_i hstop
      exact ⟨by omega, hstart⟩

/-- The search computes `YearFromTime`: the year it returns starts no later than `t`
    and the next year starts after `t`. -/
theorem yearFromTime_spec (t : Int) :
    timeFromYear (yearFromTime t) ≤ t ∧ t < timeFromYear (yearFromTime t + 1) := by
  have hday : msPerDay * (t / msPerDay) ≤ t ∧ t < msPerDay * (t / msPerDay + 1) := by
    unfold msPerDay
    constructor <;> omega
  have hyear : dayFromYear (yearFromTime t) ≤ t / msPerDay ∧
      t / msPerDay < dayFromYear (yearFromTime t + 1) := by
    unfold yearFromTime
    simp only []
    split
    · rename_i hpos
      apply yearUp_spec
      · have : dayFromYear 1970 = 0 := by decide
        omega
      · have : dayFromYear 1970 = 0 := by decide
        rw [this]
        push_cast
        omega
    · rename_i hneg
      apply yearDown_spec
      · have : dayFromYear (1970 + 1) = 365 := by decide
        omega
      · have : dayFromYear 1970 = 0 := by decide
        rw [this]
        push_cast
        omega
  unfold timeFromYear
  have hms : (0 : Int) < msPerDay := by decide
  constructor
  · calc msPerDay * dayFromYear (yearFromTime t)
        ≤ msPerDay * (t / msPerDay) := Int.mul_le_mul_of_nonneg_left hyear.1 (le_of_lt hms)
      _ ≤ t := hday.1
  · calc t < msPerDay * (t / msPerDay + 1) := hday.2
      _ ≤ msPerDay * dayFromYear (yearFromTime t + 1) :=
          Int.mul_le_mul_of_nonneg_left (by omega) (le_of_lt hms)

end JS

/-- C22 (failing input): born at 2001-01-01T00:00:00Z, at 2020-01-01T12:00:00Z the 19th
    anniversary of the birth has passed and the 20th has not, so 19 complete calendar
    years have elapsed; the elapsed time falls in the year 1988 of the epoch calendar
    and `calculateAge`, like the computation of the pre-save hook, returns 18. -/
theorem calculateAge_behind_on_birthday :
    bornNewYear2001 ≤ noonNewYear2020 ∧
      JS.timeFromYear (2001 + 19) ≤ noonNewYear2020 ∧
      noonNewYear2020 < JS.timeFromYear (2001 + 20) ∧
      JS.timeFromYear 1988 ≤ noonNewYear2020 - bornNewYear2001 ∧
      noonNewYear2020 - bornNewYear2001 < JS.timeFromYear 1989 ∧
      Helpers.calculateAge bornNewYear2001 noonNewYear2020 = 18 ∧
      UserModel.preSaveAge bornNewYear2001 noonNewYear2020 = 18 := by
  decide

namespace HoroscopeCalculator

open JS

/-- Whenever the calculator returns, the bhakoot compatibility is 0 or 2. -/
theorem calculateBhakootCompatibility_ok_le (rashi1 rashi2 : Option String) (s : Nat)
    (h : calculateBhakootCompatibility rashi1 rashi2 = Except.ok s) : s ≤ 2 := by
  unfold calculateBhakootCompatibility at h
  split at h
  · cases h; decide
  · cases h
  · injection h with h
    subst h
    split_ifs <;> decide

/-- C24: in `calculateMatchScore` of the calculator each of the five sub-scores is
    non-negative and at most the maximum of its comment (rashi 12, nakshatra 8, manglik
    8, gana 6, bhakoot 2), so the sum is at most 36 and `Math.min(totalScore, 36)` returns
    the sum unchanged; the sub-scores are returned whenever the first rashi is not an
    inherited key. -/
theorem calculateMatchScore_sum_within_max (horoscope1 horoscope2 : Horoscope) :
    (∀ rashiScore bhakootScore : Nat,
      calculateRashiCompatibility horoscope1.rashi horoscope2.rashi = Except.ok rashiScore →
      calculateBhakootCompatibility horoscope1.rashi horoscope2.rashi
        = Except.ok bhakootScore →
      (0 ≤ rashiScore ∧ rashiScore ≤ 12) ∧
      (0 ≤ calculateNakshatraCompatibility horoscope1.nakshatra horoscope2.nakshatra ∧
        calculateNakshatraCompatibility horoscope1.nakshatra horoscope2.nakshatra ≤ 8) ∧
      (0 ≤ calculateManglikCompatibility horoscope1.manglik horoscope2.manglik ∧
        calculateManglikCompatibility horoscope1.manglik horoscope2.manglik ≤ 8) ∧
      (0 ≤ calculateGanaCompatibility horoscope1.nakshatra horoscope2.nakshatra ∧
        calculateGanaCompatibility horoscope1.nakshatra horoscope2.nakshatra ≤ 6) ∧
      (0 ≤ bhakootScore ∧ bhakootScore ≤ 2) ∧
      rashiScore + calculateNakshatraCompatibility horoscope1.nakshatra horoscope2.nakshatra
        + calculateManglikCompatibility horoscope1.manglik horoscope2.manglik
        + calculateGanaCompatibility horoscope1.nakshatra horoscope2.nakshatra
        + bhakootScore ≤ 36 ∧
      calculateMatchScore horoscope1 horoscope2 = Except.ok
        (rashiScore
          + calculateNakshatraCompatibility horoscope1.nakshatra horoscope2.nakshatra
          + calculateManglikCompatibility horoscope1.manglik horoscope2.manglik
          + calculateGanaCompatibility horoscope1.nakshatra horoscope2.nakshatra
          + bhakootScore)) ∧
    (toPropertyKey horoscope1.rashi ∉ objectPrototypeKeys →
      ∃ rashiScore bhakootScore : Nat,
        calculateRashiCompatibility horoscope1.rashi horoscope2.rashi
          = Except.ok rashiScore ∧
        calculateBhakootCompatibility horoscope1.rashi horoscope2.rashi
          = Except.ok bhakootScore) := by
  constructor
  · intro r b hr hb
    have h12 := calculateRashiCompatibility_ok_le _ _ _ hr
    have h2 := calculateBhakootCompatibility_ok_le _ _ _ hb
    have h8n := calculateNakshatraCompatibility_le horoscope1.nakshatra horoscope2.nakshatra
    have h8m := calculateManglikCompatibility_le horoscope1.manglik horoscope2.manglik
    have h6 := calculateGanaCompatibility_le horoscope1.nakshatra horoscope2.nakshatra
    have hsum : r + calculateNakshatraCompatibility horoscope1.nakshatra horoscope2.nakshatra
        + calculateManglikCompatibility horoscope1.manglik horoscope2.manglik
        + calculateGanaCompatibility horoscope1.nakshatra horoscope2.nakshatra + b ≤ 36 := by
      omega
    refine ⟨⟨Nat.zero_le _, h12⟩, ⟨Nat.zero_le _, h8n⟩, ⟨Nat.zero_le _, h8m⟩,
      ⟨Nat.zero_le _, h6⟩, ⟨Nat.zero_le _, h2⟩, hsum, ?_⟩
    unfold calculateMatchScore
    rw [hr, hb]
    show Except.ok (Min.min _ 36) = Except.ok _
    rw [Nat.min_eq_left hsum]
  · intro hkey
    obtain ⟨r, hr⟩ := calculateRashiCompatibility_ok horoscope1.rashi horoscope2.rashi hkey
    obtain ⟨b, hb⟩ := calculateBhakootCompatibility_ok horoscope1.rashi horoscope2.rashi hkey
    exact ⟨r, b, hr, hb⟩

/-- Witness for C24: Aries against Aquarius, sub-scores 8, 6, 8, 6, 2 and sum 30. -/
theorem calculateMatchScore_sum_within_max_witness :
    toPropertyKey horoscopeAries.rashi ∉ objectPrototypeKeys ∧
      calculateRashiCompatibility horoscopeAries.rashi horoscopeAquarius.rashi
        = Except.ok 8 ∧
      calculateBhakootCompatibility horoscopeAries.rashi horoscopeAquarius.rashi
        = Except.ok 2 ∧
      8 + calculateNakshatraCompatibility horoscopeAries.nakshatra horoscopeAquarius.nakshatra
        + calculateManglikCompatibility horoscopeAries.manglik horoscopeAquarius.manglik
        + calculateGanaCompatibility horoscopeAries.nakshatra horoscopeAquarius.nakshatra
        + 2 ≤ 36 ∧
      calculateMatchScore horoscopeAries horoscopeAquarius = Except.ok
        (8 + calculateNakshatraCompatibility horoscopeAries.nakshatra
              horoscopeAquarius.nakshatra
          + calculateManglikCompatibility horoscopeAries.manglik horoscopeAquarius.manglik
          + calculateGanaCompatibility horoscopeAries.nakshatra horoscopeAquarius.nakshatra
          + 2) :=
  ⟨by decide, rfl, rfl,
    ((calculateMatchScore_sum_within_max horoscopeAries horoscopeAquarius).1 8 2 rfl
      rfl).2.2.2.2.2.1,
    ((calculateMatchScore_sum_within_max horoscopeAries horoscopeAquarius).1 8 2 rfl
      rfl).2.2.2.2.2.2⟩

end HoroscopeCalculator

namespace MatchAlgorithms

open JS

/-- The age block is symmetric. -/
theorem ageScore_comm (user1 user2 : User) : ageScore user1 user2 = ageScore user2 user1 := by
  unfold ageScore
  rw [Bool.and_comm]
  cases user1.age <;> cases user2.age <;> simp [abs_sub_comm]

/-- The education block is symmetric. -/
theorem educationScore_comm (user1 user2 : User) :
    educationScore user1 user2 = educationScore user2 user1 := by
  unfold educationScore
  rw [Bool.and_comm]
  cases user1.education with
  | none => cases user2.education <;> simp
  | some e1 =>
    cases user2.education with
    | none => simp
    | some e2 =>
      dsimp only
      generalize eduLevel e1 = level1
      generalize eduLevel e2 = level2
      cases level1 with
      | none => cases level2 <;> rfl
      | some edu1 =>
        cases level2 with
        | none => rfl
        | some edu2 =>
          dsimp only
          rw [abs_sub_comm edu1 edu2]

/-- The related-professions test is symmetric. -/
theorem isSimilar_comm (p1 p2 : Option String) : isSimilar p1 p2 = isSimilar p2 p1 := by
  unfold isSimilar
  congr 1
  funext group
  exact Bool.and_comm _ _

/-- The profession block is symmetric. -/
theorem professionScore_comm (user1 user2 : User) :
    professionScore user1 user2 = professionScore user2 user1 := by
  unfold professionScore
  have heq : user1.profession = user2.profession ↔ user2.profession = user1.profession :=
    eq_comm
  rw [Bool.and_comm, isSimilar_comm]
  simp only [heq]

/-- The location block is symmetric. -/
theorem locationScore_comm (user1 user2 : User) :
    locationScore user1 user2 = locationScore user2 user1 := by
  unfold locationScore
  have hcity : user1.currentCity = user2.currentCity ↔ user2.currentCity = user1.currentCity :=
    eq_comm
  have hstate : user1.currentState = user2.currentState ↔
      user2.currentState = user1.currentState := eq_comm
  have hcountry : user1.currentCountry = user2.currentCountry ↔
      user2.currentCountry = user1.currentCountry := eq_comm
  rw [Bool.and_comm, Bool.or_comm]
  simp only [hcity, hstate, hcountry]

/-- The income ratio is symmetric. -/
theorem incomeRatio_comm (a b : ℚ) : incomeRatio a b = incomeRatio b a := by
  unfold incomeRatio
  rw [min_comm, max_comm]

/-- The income block is symmetric. -/
theorem incomeScore_comm (user1 user2 : User) :
    incomeScore user1 user2 = incomeScore user2 user1 := by
  unfold incomeScore
  rw [Bool.and_comm]
  cases user1.annualIncome <;> cases user2.annualIncome <;> simp
  rename_i a b
  rw [incomeRatio_comm]

/-- The lifestyle block is symmetric. -/
theorem lifestyleScore_comm (user1 user2 : User) :
    lifestyleScore user1 user2 = lifestyleScore user2 user1 := by
  unfold lifestyleScore
  have hdiet : user1.diet = user2.diet ↔ user2.diet = user1.diet := eq_comm
  have hsmoking : user1.smoking = user2.smoking ↔ user2.smoking = user1.smoking := eq_comm
  have hdrinking : user1.drinking = user2.drinking ↔ user2.drinking = user1.drinking :=
    eq_comm
  simp only [hdiet, hsmoking, hdrinking]

/-- The family block is symmetric. -/
theorem familyScore_comm (user1 user2 : User) :
    familyScore user1 user2 = familyScore user2 user1 := by
  unfold familyScore
  have hsub : user1.subCommunity = user2.subCommunity ↔
      user2.subCommunity = user1.subCommunity := eq_comm
  have hgotra : user1.gotra ≠ user2.gotra ↔ user2.gotra ≠ user1.gotra := ne_comm
  simp only [hsub, hgotra]

/-- The preference block adds both directions, so it is symmetric. -/
theorem preferenceScore_comm (user1 user2 : User) :
    preferenceScore user1 user2 = preferenceScore user2 user1 := by
  unfold preferenceScore
  rw [Nat.add_comm]

/-- The community bonus is symmetric. -/
theorem communityBonus_comm (user1 user2 : User) :
    communityBonus user1 user2 = communityBonus user2 user1 := by
  unfold communityBonus
  have hiff : (user1.subCommunity = user2.subCommunity ∧ user1.subCommunity = some "Yadhavar")
      ↔ (user2.subCommunity = user1.subCommunity ∧ user2.subCommunity = some "Yadhavar") := by
    constructor
    · rintro ⟨h1, h2⟩
      exact ⟨h1.symm, h1 ▸ h2⟩
    · rintro ⟨h1, h2⟩
      exact ⟨h1.symm, h1 ▸ h2⟩
  simp only [hiff]

/-- C26: `calculateMatchScore` is symmetric in its two arguments, for every pair of
    profiles, whatever their stated preferences. -/
theorem calculateMatchScore_comm (profileA profileB : User) :
    calculateMatchScore profileA profileB = calculateMatchScore profileB profileA := by
  unfold calculateMatchScore
  rw [ageScore_comm, educationScore_comm, professionScore_comm, locationScore_comm,
    incomeScore_comm, lifestyleScore_comm, familyScore_comm, preferenceScore_comm,
    communityBonus_comm]

end MatchAlgorithms

namespace HoroscopeController

open JS

/-- C28 (failing input): with the rashi `constructor` on one side and Aries on the
    other, `calculateHoroscopeMatch` throws in one order and returns 22 in the other. -/
theorem calculateHoroscopeMatch_asymmetric_on_inherited_key :
    calculateHoroscopeMatch horoscopeConstructor horoscopeAries
        = Except.error JSError.typeError ∧
      calculateHoroscopeMatch horoscopeAries horoscopeConstructor = Except.ok 22 := by
  constructor <;> rfl

/-- The table entry consulted for a rashi that is not an inherited key. -/
theorem rashiListed_of_own_or_missing (rashi1 rashi2 : Option String)
    (hkey : toPropertyKey rashi1 ∉ objectPrototypeKeys) :
    rashiListed rashi1 rashi2 = Except.ok
      (match rashiCompatiblity.lookup (toPropertyKey rashi1) with
       | some compatible => includes compatible rashi2
       | none => false) := by
  unfold rashiListed lookupKey
  cases rashiCompatiblity.lookup (toPropertyKey rashi1) with
  | none => simp [hkey]; rfl
  | some compatible => rfl

/-- The compatibility table is a symmetric relation on the signs it lists. -/
theorem rashiCompatiblity_symmetric :
    ∀ entry ∈ rashiCompatiblity, ∀ sign ∈ entry.2,
      (match rashiCompatiblity.lookup sign with
       | some compatible => compatible.contains entry.1
       | none => false) = true := by
  decide

/-- One direction of the symmetry of the table lookup. -/
theorem listed_symm_of_true (rashi1 rashi2 : Option String)
    (h : (match rashiCompatiblity.lookup (toPropertyKey rashi1) with
          | some compatible => includes compatible rashi2
          | none => false) = true) :
    (match rashiCompatiblity.lookup (toPropertyKey rashi2) with
     | some compatible => includes compatible rashi1
     | none => false) = true := by
  cases hlookup : rashiCompatiblity.lookup (toPropertyKey rashi1) with
  | none => rw [hlookup] at h; cases h
  | some compatible =>
    rw [hlookup] at h
    dsimp only at h
    cases rashi2 with
    | none => cases h
    | some sign2 =>
      have hmem : (toPropertyKey rashi1, compatible) ∈ rashiCompatiblity := by
        obtain ⟨l₁, l₂, heq, _⟩ := List.lookup_eq_some_iff.mp hlookup
        rw [heq]
        simp
      have hsign : sign2 ∈ compatible := by
        unfold includes at h
        simpa using h
      have hsym := rashiCompatiblity_symmetric _ hmem sign2 hsign
      cases rashi1 with
      | none =>
        have hundefined : rashiCompatiblity.lookup "undefined" = none := by decide
        rw [show toPropertyKey (none : Option String) = "undefined" from rfl, hundefined]
          at hlookup
        cases hlookup
      | some sign1 =>
        show (match rashiCompatiblity.lookup sign2 with
          | some compatible => includes compatible (some sign1)
          | none => false) = true
        exact hsym

/-- The table lookup is symmetric in the two rashis. -/
theorem listed_comm (rashi1 rashi2 : Option String) :
    (match rashiCompatiblity.lookup (toPropertyKey rashi1) with
     | some compatible => includes compatible rashi2
     | none => false) =
    (match rashiCompatiblity.lookup (toPropertyKey rashi2) with
     | some compatible => includes compatible rashi1
     | none => false) := by
  rw [Bool.eq_iff_iff]
  exact ⟨listed_symm_of_true rashi1 rashi2, listed_symm_of_true rashi2 rashi1⟩

/-- When neither rashi is an inherited key, `calculateHoroscopeMatch` is symmetric. -/
theorem calculateHoroscopeMatch_comm_of_own_or_missing (horoscope1 horoscope2 : Horoscope)
    (hkey1 : toPropertyKey horoscope1.rashi ∉ objectPrototypeKeys)
    (hkey2 : toPropertyKey horoscope2.rashi ∉ objectPrototypeKeys) :
    calculateHoroscopeMatch horoscope1 horoscope2
      = calculateHoroscopeMatch horoscope2 horoscope1 := by
  have hrashi : rashiPoints horoscope1 horoscope2 = rashiPoints horoscope2 horoscope1 := by
    unfold rashiPoints
    rw [rashiListed_of_own_or_missing _ _ hkey1, rashiListed_of_own_or_missing _ _ hkey2,
      listed_comm horoscope1.rashi horoscope2.rashi]
    have heq : horoscope1.rashi = horoscope2.rashi ↔ horoscope2.rashi = horoscope1.rashi :=
      eq_comm
    simp only [heq]
  have hnakshatra :
      nakshatraPoints horoscope1 horoscope2 = nakshatraPoints horoscope2 horoscope1 := by
    unfold nakshatraPoints
    have heq : horoscope1.nakshatra = horoscope2.nakshatra ↔
        horoscope2.nakshatra = horoscope1.nakshatra := eq_comm
    simp only [heq]
  have hmanglik :
      manglikPoints horoscope1 horoscope2 = manglikPoints horoscope2 horoscope1 := by
    unfold manglikPoints
    cases horoscope1.manglik <;> cases horoscope2.manglik <;> rfl
  have hpada : padaPoints horoscope1 horoscope2 = padaPoints horoscope2 horoscope1 := by
    unfold padaPoints
    have heq : horoscope1.nakshatraPada = horoscope2.nakshatraPada ↔
        horoscope2.nakshatraPada = horoscope1.nakshatraPada := eq_comm
    simp only [heq]
  have hplanet : planetPoints horoscope1 horoscope2 = planetPoints horoscope2 horoscope1 := by
    unfold planetPoints
    have heq : sunOf horoscope1 = sunOf horoscope2 ↔ sunOf horoscope2 = sunOf horoscope1 :=
      eq_comm
    rw [Bool.and_comm]
    simp only [heq]
  unfold calculateHoroscopeMatch
  rw [hrashi, hnakshatra, hmanglik, hpada, hplanet]

end HoroscopeController
